import Mathlib

/-!
Verification development for the `nats-types` crate: a bidirectional codec
between typed NATS protocol messages and their textual wire form.

The Rust source (src/lib.rs, src/parser.rs) is embedded shallowly:
strings are `List Char`, byte vectors are `List Nat` (each < 256),
machine integers are `Nat` with explicit `< 2^64` bounds where the code
uses `u64`/`usize`, and fallible operations return `Option`.
The nom parser combinators over `CompleteStr` are modelled as functions
`List Char → Option (α × List Char)` returning the parsed value and the
remaining input.
-/

namespace NatsTypes

/-- Strings of the embedding: Rust `&str` / `String` as a list of unicode
scalar values. -/
abbrev Chars := List Char

/-- Shorthand to turn a Lean string literal into the embedding's type. -/
def str (s : String) : Chars := s.data

/-- The CRLF line terminator. -/
def crlf : Chars := ['\r', '\n']

/-! ## Character classes (src/parser.rs lines 47-66) -/

/-- Embeds `is_digit` from src/parser.rs: the ten decimal digit characters. -/
def is_digit (c : Char) : Bool :=
  c == '1' || c == '0' || c == '2' || c == '3' || c == '4' || c == '5' ||
  c == '6' || c == '7' || c == '8' || c == '9'

/-- Embeds `is_not_space` from src/parser.rs: everything except space, CR, LF
(note: a horizontal tab satisfies this predicate). -/
def is_not_space (c : Char) : Bool :=
  c != ' ' && c != '\r' && c != '\n'

/-- Embeds `is_not_tick` from src/parser.rs. -/
def is_not_tick (c : Char) : Bool :=
  c != '\''

/-- Whether a character is in the separator set of the grammars'
`is_a!(" \t")`. -/
def isWsChar (c : Char) : Bool := c == ' ' || c == '\t'

/-! ## nom primitives over `CompleteStr` -/

/-- Embeds nom's `tag_s!`: consume the literal `t` or fail. -/
def ptag (t : Chars) (s : Chars) : Option Chars :=
  if t.isPrefixOf s then some (s.drop t.length) else none

/-- Embeds nom's `take_while1_s!(p)` on complete input: the maximal nonempty
prefix satisfying `p`. -/
def pTakeWhile1 (p : Char → Bool) (s : Chars) : Option (Chars × Chars) :=
  match s.takeWhile p with
  | [] => none
  | tk => some (tk, s.dropWhile p)

/-- Embeds nom's `is_a!(" \t")`: a maximal nonempty run of spaces/tabs. -/
def pIsA (s : Chars) : Option (Chars × Chars) :=
  pTakeWhile1 isWsChar s

/-- Embeds nom's `char!(c)`. -/
def pChar (c : Char) (s : Chars) : Option Chars :=
  match s with
  | [] => none
  | c0 :: rest => if c0 = c then some rest else none

/-- Numeric value of a run of decimal digit characters, most significant
first (what `str::parse::<u64>` computes, before its overflow check). -/
def digitsVal (ds : Chars) : Nat :=
  ds.foldl (fun a c => a * 10 + (c.toNat - 48)) 0

/-- Embeds `parse_u64` from src/parser.rs: `take_while1_s!(is_digit)` piped
through `parse_to!(u64)`; overflow of `u64` makes `str::parse` fail. -/
def parse_u64 (s : Chars) : Option (Nat × Chars) :=
  match pTakeWhile1 is_digit s with
  | none => none
  | some (ds, r) =>
      if digitsVal ds < 2 ^ 64 then some (digitsVal ds, r) else none

/-- Embeds `parse_completestr` from src/parser.rs:
`take_while1_s!(is_not_space)` converted to an owned string. -/
def parse_completestr (s : Chars) : Option (Chars × Chars) :=
  pTakeWhile1 is_not_space s

/-- Embeds `opt!(terminated!(parse_completestr, is_a!(" \t")))`, the shape
used for the optional reply-to / queue-group fields: on any inner failure
`opt!` backtracks and consumes nothing. -/
def optTokenSep (s : Chars) : Option Chars × Chars :=
  (parse_completestr s).elim (none, s) fun p =>
    (pIsA p.2).elim (none, s) fun p2 => (some p.1, p2.2)

/-! ## Decimal rendering of numbers (Rust's `{}` for `u64`/`usize`) -/

/-- The character for the decimal digit `d < 10`. -/
def digitChar (d : Nat) : Char := Char.ofNat (48 + d)

/-- Digit characters of a positive `n`, most significant first; the first
argument is fuel (any value `≥ n` is enough). -/
def natCharsAux : Nat → Nat → Chars
  | 0, _ => []
  | fuel + 1, n => if n = 0 then [] else natCharsAux fuel (n / 10) ++ [digitChar (n % 10)]

/-- Decimal digit characters of `n`, most significant first, `"0"` for zero
(the output of Rust's `Display` for unsigned integers). -/
def natChars (n : Nat) : Chars :=
  if n = 0 then ['0'] else natCharsAux n n

/-! ## UTF-8 (Rust `str::as_bytes` and `String::from_utf8`) -/

/-- UTF-8 encoding of one unicode scalar value. -/
def utf8EncodeChar (c : Char) : List Nat :=
  let n := c.toNat
  if n < 0x80 then [n]
  else if n < 0x800 then [0xC0 + n / 64, 0x80 + n % 64]
  else if n < 0x10000 then
    [0xE0 + n / 4096, 0x80 + n / 64 % 64, 0x80 + n % 64]
  else
    [0xF0 + n / 0x40000, 0x80 + n / 4096 % 64, 0x80 + n / 64 % 64,
     0x80 + n % 64]

/-- UTF-8 encoding of a string, as `str::as_bytes` exposes it. -/
def utf8Encode (cs : Chars) : List Nat :=
  cs.flatMap utf8EncodeChar

/-- Continuation of a two-byte UTF-8 sequence led by `b0`. -/
def utf8Cont2 (b0 : Nat) : List Nat → Option (Char × List Nat)
  | b1 :: rest2 =>
    if 0x80 ≤ b1 ∧ b1 < 0xC0 then
      some (Char.ofNat ((b0 - 0xC0) * 64 + (b1 - 0x80)), rest2)
    else none
  | [] => none

/-- Continuation of a three-byte UTF-8 sequence led by `b0` (overlong and
surrogate values rejected). -/
def utf8Cont3 (b0 : Nat) : List Nat → Option (Char × List Nat)
  | b1 :: b2 :: rest2 =>
    if 0x80 ≤ b1 ∧ b1 < 0xC0 ∧ 0x80 ≤ b2 ∧ b2 < 0xC0 ∧
       0x800 ≤ (b0 - 0xE0) * 4096 + (b1 - 0x80) * 64 + (b2 - 0x80) ∧
       ¬(0xD800 ≤ (b0 - 0xE0) * 4096 + (b1 - 0x80) * 64 + (b2 - 0x80) ∧
         (b0 - 0xE0) * 4096 + (b1 - 0x80) * 64 + (b2 - 0x80) < 0xE000) then
      some (Char.ofNat ((b0 - 0xE0) * 4096 + (b1 - 0x80) * 64 + (b2 - 0x80)),
        rest2)
    else none
  | _ => none

/-- Continuation of a four-byte UTF-8 sequence led by `b0` (overlong and
out-of-range values rejected). -/
def utf8Cont4 (b0 : Nat) : List Nat → Option (Char × List Nat)
  | b1 :: b2 :: b3 :: rest2 =>
    if 0x80 ≤ b1 ∧ b1 < 0xC0 ∧ 0x80 ≤ b2 ∧ b2 < 0xC0 ∧
       0x80 ≤ b3 ∧ b3 < 0xC0 ∧
       0x10000 ≤ (b0 - 0xF0) * 0x40000 + (b1 - 0x80) * 4096 +
         (b2 - 0x80) * 64 + (b3 - 0x80) ∧
       (b0 - 0xF0) * 0x40000 + (b1 - 0x80) * 4096 +
         (b2 - 0x80) * 64 + (b3 - 0x80) < 0x110000 then
      some (Char.ofNat ((b0 - 0xF0) * 0x40000 + (b1 - 0x80) * 4096 +
          (b2 - 0x80) * 64 + (b3 - 0x80)), rest2)
    else none
  | _ => none

/-- One step of strict UTF-8 decoding: the leading scalar value and the
remaining bytes, rejecting stray or missing continuation bytes, overlong
encodings, surrogate code points and values above U+10FFFF (the checks
`String::from_utf8` performs). -/
def utf8DecodeStep : List Nat → Option (Char × List Nat)
  | [] => none
  | b0 :: rest =>
    if b0 < 0x80 then some (Char.ofNat b0, rest)
    else if 0xC2 ≤ b0 ∧ b0 < 0xE0 then utf8Cont2 b0 rest
    else if 0xE0 ≤ b0 ∧ b0 < 0xF0 then utf8Cont3 b0 rest
    else if 0xF0 ≤ b0 ∧ b0 < 0xF5 then utf8Cont4 b0 rest
    else none

/-- Fueled decoding loop; each step consumes at least one byte, so fuel
equal to the byte count is always sufficient. -/
def utf8DecodeAux : Nat → List Nat → Option Chars
  | _, [] => some []
  | 0, _ :: _ => none
  | fuel + 1, b0 :: rest =>
    (utf8DecodeStep (b0 :: rest)).bind fun p =>
      (utf8DecodeAux fuel p.2).map (p.1 :: ·)

/-- Strict UTF-8 decoding of a byte sequence, as `String::from_utf8`
performs it. -/
def utf8Decode (l : List Nat) : Option Chars :=
  utf8DecodeAux l.length l

/-! ## CRLF framing (src/parser.rs `split_header_and_payload`) -/

/-- Rust's `str::split("\r\n")`: the CRLF-delimited segments, leftmost,
non-overlapping, empty segments kept. -/
def splitCRLF : Chars → List Chars
  | [] => [[]]
  | c :: rest =>
    if c = '\r' ∧ rest.head? = some '\n' then
      [] :: splitCRLF rest.tail
    else
      match splitCRLF rest with
      | [] => [[c]]
      | a :: as_ => (c :: a) :: as_
termination_by s => s.length
decreasing_by
  · simp only [List.length_cons, List.length_tail]
    omega
  · simp

/-- Whether `"\r\n"` occurs in the string (equivalently: whether Rust's
split yields at least two segments). -/
def hasCRLF : Chars → Bool
  | [] => false
  | c :: rest =>
    (decide (c = '\r') && decide (rest.head? = some '\n')) || hasCRLF rest

/-- Embeds `split_header_and_payload` from src/parser.rs: split on CRLF;
fewer than two segments is a failure, otherwise return the first segment
and the bytes of the second. -/
def split_header_and_payload (s : Chars) : Option (Chars × List Nat) :=
  match splitCRLF s with
  | a :: b :: _ => some (a, utf8Encode b)
  | _ => none

theorem split_hp_eq_cons (s a b : Chars) (t : List Chars)
    (h : splitCRLF s = a :: b :: t) :
    split_header_and_payload s = some (a, utf8Encode b) := by
  unfold split_header_and_payload
  rw [h]

theorem split_hp_eq_single (s a : Chars) (h : splitCRLF s = [a]) :
    split_header_and_payload s = none := by
  unfold split_header_and_payload
  rw [h]

/-! ## Header structures and grammars (src/parser.rs lines 9-170) -/

/-- Result of the MSG header grammar. -/
structure MessageHeader where
  subject : Chars
  sid : Nat
  reply_to : Option Chars
  message_len : Nat
  deriving Repr, DecidableEq

/-- Result of the PUB header grammar. -/
structure PubHeader where
  subject : Chars
  reply_to : Option Chars
  message_len : Nat
  deriving Repr, DecidableEq

/-- Result of the SUB header grammar. -/
structure SubHeader where
  subject : Chars
  queue_group : Option Chars
  sid : Nat
  deriving Repr, DecidableEq

/-- Result of the UNSUB header grammar. -/
structure UnsubHeader where
  sid : Nat
  max_messages : Option Nat
  deriving Repr, DecidableEq

/-- Result of the -ERR header grammar. -/
structure ErrorHeader where
  message : Chars
  deriving Repr, DecidableEq

/-- Embeds the nom grammar `msg_header`:
`MSG`, separator, subject, separator, sid, separator, optional
(reply-to + separator), length. Trailing input is left unconsumed. -/
def msg_header (s : Chars) : Option (MessageHeader × Chars) :=
  (ptag (str "MSG") s).bind fun s1 =>
  (pIsA s1).bind fun p1 =>
  (parse_completestr p1.2).bind fun p2 =>
  (pIsA p2.2).bind fun p3 =>
  (parse_u64 p3.2).bind fun p4 =>
  (pIsA p4.2).bind fun p5 =>
  (parse_u64 (optTokenSep p5.2).2).map fun p7 =>
    ({ subject := p2.1, sid := p4.1, reply_to := (optTokenSep p5.2).1,
       message_len := p7.1 }, p7.2)

/-- Embeds `parse_msg_header`: run the grammar, keep the value. -/
def parse_msg_header (s : Chars) : Option MessageHeader :=
  (msg_header s).map Prod.fst

/-- Embeds the nom grammar `pub_header`:
`PUB`, separator, subject, separator, optional (reply-to + separator),
length. -/
def pub_header (s : Chars) : Option (PubHeader × Chars) :=
  (ptag (str "PUB") s).bind fun s1 =>
  (pIsA s1).bind fun p1 =>
  (parse_completestr p1.2).bind fun p2 =>
  (pIsA p2.2).bind fun p3 =>
  (parse_u64 (optTokenSep p3.2).2).map fun p5 =>
    ({ subject := p2.1, reply_to := (optTokenSep p3.2).1,
       message_len := p5.1 }, p5.2)

/-- Embeds `parse_pub_header`. -/
def parse_pub_header (s : Chars) : Option PubHeader :=
  (pub_header s).map Prod.fst

/-- Embeds the nom grammar `sub_header`:
`SUB`, separator, subject, separator, optional (queue-group + separator),
sid. -/
def sub_header (s : Chars) : Option (SubHeader × Chars) :=
  (ptag (str "SUB") s).bind fun s1 =>
  (pIsA s1).bind fun p1 =>
  (parse_completestr p1.2).bind fun p2 =>
  (pIsA p2.2).bind fun p3 =>
  (parse_u64 (optTokenSep p3.2).2).map fun p5 =>
    ({ subject := p2.1, queue_group := (optTokenSep p3.2).1,
       sid := p5.1 }, p5.2)

/-- Embeds `parse_sub_header`. -/
def parse_sub_header (s : Chars) : Option SubHeader :=
  (sub_header s).map Prod.fst

/-- Embeds nom's `opt!(is_a!(" \t"))`: consume a separator run if there
is one. -/
def optConsume (s : Chars) : Chars :=
  (pIsA s).elim s fun p => p.2

/-- Embeds the nom grammar `unsub_header`:
`UNSUB`, separator, sid, optional separator, optional max-messages
(each `opt!` backtracking on failure). -/
def unsub_header (s : Chars) : Option (UnsubHeader × Chars) :=
  (ptag (str "UNSUB") s).bind fun s1 =>
  (pIsA s1).bind fun p1 =>
  (parse_u64 p1.2).bind fun p2 =>
  (parse_u64 (optConsume p2.2)).elim
    (some ({ sid := p2.1, max_messages := none }, optConsume p2.2))
    fun p4 => some ({ sid := p2.1, max_messages := some p4.1 }, p4.2)

/-- Embeds `parse_unsub_header`. -/
def parse_unsub_header (s : Chars) : Option UnsubHeader :=
  (unsub_header s).map Prod.fst

/-- Embeds the nom grammar `err_header`:
literal `-ERR '`, then one-or-more non-tick characters, then `'`. -/
def err_header (s : Chars) : Option (ErrorHeader × Chars) :=
  (ptag (str "-ERR '") s).bind fun s1 =>
  (pTakeWhile1 is_not_tick s1).bind fun p1 =>
  (pChar '\'' p1.2).map fun s2 =>
    ({ message := p1.1 }, s2)

/-- Embeds `parse_err_header`. -/
def parse_err_header (s : Chars) : Option ErrorHeader :=
  (err_header s).map Prod.fst

/-! ## Message types and their renderers/parsers (src/lib.rs) -/

/-- Embeds `vec_to_str`: decode the payload as UTF-8, with a fixed
placeholder when the bytes are not valid UTF-8. -/
def vec_to_str (bytes : List Nat) : Chars :=
  (utf8Decode bytes).getD (str "<<BAD PAYLOAD>>")

/-- Embeds `DeliveredMessage` (MSG). -/
structure DeliveredMessage where
  subject : Chars
  subscription_id : Nat
  reply_to : Option Chars
  payload_size : Nat
  payload : List Nat
  deriving Repr, DecidableEq

/-- Embeds `impl Display for DeliveredMessage`. -/
def DeliveredMessage.render (m : DeliveredMessage) : Chars :=
  match m.reply_to with
  | none =>
      str "MSG " ++ m.subject ++ str " " ++ natChars m.subscription_id ++
      str " " ++ natChars m.payload_size ++ crlf ++ vec_to_str m.payload ++ crlf
  | some rt =>
      str "MSG " ++ m.subject ++ str " " ++ natChars m.subscription_id ++
      str " " ++ rt ++ str " " ++ natChars m.payload_size ++ crlf ++
      vec_to_str m.payload ++ crlf

/-- Embeds `impl FromStr for DeliveredMessage`: split the two-line frame,
then run the MSG header grammar on the header line. -/
def DeliveredMessage.fromStr (s : Chars) : Option DeliveredMessage :=
  (split_header_and_payload s).bind fun hp =>
  (parse_msg_header hp.1).map fun r =>
    { subject := r.subject, subscription_id := r.sid,
      reply_to := r.reply_to, payload_size := r.message_len,
      payload := hp.2 }

/-- Embeds `SubscribeMessage` (SUB). -/
structure SubscribeMessage where
  subject : Chars
  queue_group : Option Chars
  subscription_id : Nat
  deriving Repr, DecidableEq

/-- Embeds `impl Display for SubscribeMessage`. -/
def SubscribeMessage.render (m : SubscribeMessage) : Chars :=
  match m.queue_group with
  | none =>
      str "SUB " ++ m.subject ++ str " " ++ natChars m.subscription_id ++ crlf
  | some q =>
      str "SUB " ++ m.subject ++ str " " ++ q ++ str " " ++
      natChars m.subscription_id ++ crlf

/-- Embeds `impl FromStr for SubscribeMessage`. -/
def SubscribeMessage.fromStr (s : Chars) : Option SubscribeMessage :=
  (parse_sub_header s).map fun r =>
    { subscription_id := r.sid, queue_group := r.queue_group,
      subject := r.subject }

/-- Embeds `UnsubscribeMessage` (UNSUB). -/
structure UnsubscribeMessage where
  subscription_id : Nat
  max_messages : Option Nat
  deriving Repr, DecidableEq

/-- Embeds `impl Display for UnsubscribeMessage`. -/
def UnsubscribeMessage.render (m : UnsubscribeMessage) : Chars :=
  match m.max_messages with
  | none => str "UNSUB " ++ natChars m.subscription_id ++ crlf
  | some n =>
      str "UNSUB " ++ natChars m.subscription_id ++ str " " ++
      natChars n ++ crlf

/-- Embeds `impl FromStr for UnsubscribeMessage`. -/
def UnsubscribeMessage.fromStr (s : Chars) : Option UnsubscribeMessage :=
  (parse_unsub_header s).map fun r =>
    { subscription_id := r.sid, max_messages := r.max_messages }

/-- Embeds `PublishMessage` (PUB). -/
structure PublishMessage where
  subject : Chars
  reply_to : Option Chars
  payload_size : Nat
  payload : List Nat
  deriving Repr, DecidableEq

/-- Embeds `impl Display for PublishMessage`. -/
def PublishMessage.render (m : PublishMessage) : Chars :=
  match m.reply_to with
  | none =>
      str "PUB " ++ m.subject ++ str " " ++ natChars m.payload_size ++ crlf ++
      vec_to_str m.payload ++ crlf
  | some rt =>
      str "PUB " ++ m.subject ++ str " " ++ rt ++ str " " ++
      natChars m.payload_size ++ crlf ++ vec_to_str m.payload ++ crlf

/-- Embeds `impl FromStr for PublishMessage`. -/
def PublishMessage.fromStr (s : Chars) : Option PublishMessage :=
  (split_header_and_payload s).bind fun hp =>
  (parse_pub_header hp.1).map fun r =>
    { subject := r.subject, reply_to := r.reply_to,
      payload_size := r.message_len, payload := hp.2 }

/-! ## JSON bridge for CONNECT / INFO

The spec treats JSON encoding/decoding as an external collaborator
("an opaque structured object ↔ JSON text service with a fixed field
schema", spec §1); the serde/serde_json code realizing it is not part of
this repository's sources. It is modelled here: a JSON value type, a
canonical printer matching `serde_json::to_string`, a text parser, and
schema codecs following the serde attributes declared in src/lib.rs
(`skip_serializing_if = "Option::is_none"`, `default`, optional fields
decoding to absent, unknown fields ignored). -/

/-- Modelled from the spec: JSON values exchanged with the external JSON
codec (numeric fields of the two schemas are unsigned integers). -/
inductive Json where
  | str (s : Chars)
  | num (n : Nat)
  | bool (b : Bool)
  | null
  | arr (elems : List Json)
  | obj (members : List (String × Json))
  deriving Repr

/-- Modelled from the spec: JSON string escaping as `serde_json` renders
it (quote, backslash, and control characters escaped; everything else
verbatim). -/
def escChar (c : Char) : Chars :=
  if c = '"' then ['\\', '"']
  else if c = '\\' then ['\\', '\\']
  else if c = '\n' then ['\\', 'n']
  else if c = '\r' then ['\\', 'r']
  else if c = '\t' then ['\\', 't']
  else if c.toNat = 8 then ['\\', 'b']
  else if c.toNat = 12 then ['\\', 'f']
  else if c.toNat < 0x20 then
    ['\\', 'u', '0', '0',
     (if c.toNat / 16 < 10 then Char.ofNat (48 + c.toNat / 16)
      else Char.ofNat (87 + c.toNat / 16)),
     (if c.toNat % 16 < 10 then Char.ofNat (48 + c.toNat % 16)
      else Char.ofNat (87 + c.toNat % 16))]
  else [c]

mutual
/-- Modelled from the spec: the canonical text `serde_json::to_string`
produces (no inter-token whitespace, object members in order). -/
def jsonChars : Json → Chars
  | .str s => '"' :: s.flatMap escChar ++ ['"']
  | .num n => natChars n
  | .bool b => if b then str "true" else str "false"
  | .null => str "null"
  | .arr elems =>
      '[' :: (List.intersperse (str ",") (jsonCharsList elems)).flatten ++ [']']
  | .obj members =>
      '{' :: (List.intersperse (str ",") (jsonCharsMembers members)).flatten
        ++ ['}']

/-- Rendered texts of a list of JSON values. -/
def jsonCharsList : List Json → List Chars
  | [] => []
  | j :: js => jsonChars j :: jsonCharsList js

/-- Rendered texts of the members of a JSON object. -/
def jsonCharsMembers : List (String × Json) → List Chars
  | [] => []
  | kv :: kvs =>
      ('"' :: kv.1.data.flatMap escChar ++ ['"', ':'] ++ jsonChars kv.2) ::
      jsonCharsMembers kvs
end

/-- Hexadecimal value of a character, if it is a hex digit. -/
def hexVal (c : Char) : Option Nat :=
  if 48 ≤ c.toNat ∧ c.toNat ≤ 57 then some (c.toNat - 48)
  else if 97 ≤ c.toNat ∧ c.toNat ≤ 102 then some (c.toNat - 87)
  else if 65 ≤ c.toNat ∧ c.toNat ≤ 70 then some (c.toNat - 55)
  else none

/-- JSON structural whitespace. -/
def jsonWs (c : Char) : Bool :=
  c = ' ' || c = '\t' || c = '\n' || c = '\r'

/-- Modelled from the spec: the body of a JSON string literal, after the
opening quote, unescaping as it goes (surrogate escapes are rejected);
fueled so the function computes by structural recursion (each step
consumes at least one character, so the input's length is enough fuel). -/
def parseJsonStrAux : Nat → Chars → Option (Chars × Chars)
  | _, [] => none
  | 0, _ :: _ => none
  | fuel + 1, c :: rest =>
    if c = '"' then some ([], rest)
    else if c = '\\' then
      match rest with
      | [] => none
      | e :: rest2 =>
        if e = 'u' then
          match rest2 with
          | h1 :: h2 :: h3 :: h4 :: rest3 =>
            match hexVal h1, hexVal h2, hexVal h3, hexVal h4 with
            | some v1, some v2, some v3, some v4 =>
              let v := ((v1 * 16 + v2) * 16 + v3) * 16 + v4
              if 0xD800 ≤ v ∧ v < 0xE000 then none
              else (parseJsonStrAux fuel rest3).map fun p =>
                (Char.ofNat v :: p.1, p.2)
            | _, _, _, _ => none
          | _ => none
        else
          let c? : Option Char :=
            if e = '"' then some '"'
            else if e = '\\' then some '\\'
            else if e = '/' then some '/'
            else if e = 'n' then some '\n'
            else if e = 'r' then some '\r'
            else if e = 't' then some '\t'
            else if e = 'b' then some (Char.ofNat 8)
            else if e = 'f' then some (Char.ofNat 12)
            else none
          match c? with
          | none => none
          | some c2 => (parseJsonStrAux fuel rest2).map fun p =>
              (c2 :: p.1, p.2)
    else if c.toNat < 0x20 then none
    else (parseJsonStrAux fuel rest).map fun p => (c :: p.1, p.2)

/-- The JSON string-body reader at its sufficient fuel. -/
def parseJsonStr (s : Chars) : Option (Chars × Chars) :=
  parseJsonStrAux s.length s

mutual
/-- Modelled from the spec: recursive-descent JSON value parser (fueled;
the fuel only bounds nesting-driven recursion). -/
def parseJsonVal (fuel : Nat) (s : Chars) : Option (Json × Chars) :=
  match fuel with
  | 0 => none
  | fuel + 1 =>
    match s.dropWhile jsonWs with
    | [] => none
    | c :: rest =>
      if c = '"' then (parseJsonStr rest).map fun p => (.str p.1, p.2)
      else if c = 't' then
        (ptag (str "rue") rest).map fun r => (.bool true, r)
      else if c = 'f' then
        (ptag (str "alse") rest).map fun r => (.bool false, r)
      else if c = 'n' then
        (ptag (str "ull") rest).map fun r => (.null, r)
      else if c = '{' then
        match (rest.dropWhile jsonWs) with
        | '}' :: r2 => some (.obj [], r2)
        | _ => (parseJsonMembers fuel rest).map fun p => (.obj p.1, p.2)
      else if c = '[' then
        match (rest.dropWhile jsonWs) with
        | ']' :: r2 => some (.arr [], r2)
        | _ => (parseJsonElems fuel rest).map fun p => (.arr p.1, p.2)
      else
        match parse_u64 (c :: rest) with
        | some (n, r) => some (.num n, r)
        | none => none

/-- Modelled from the spec: one-or-more `"key": value` members followed by
`}`. -/
def parseJsonMembers (fuel : Nat) (s : Chars) :
    Option (List (String × Json) × Chars) :=
  match fuel with
  | 0 => none
  | fuel + 1 =>
    match s.dropWhile jsonWs with
    | '"' :: rest =>
      match parseJsonStr rest with
      | none => none
      | some (key, r1) =>
        match r1.dropWhile jsonWs with
        | ':' :: r2 =>
          match parseJsonVal fuel r2 with
          | none => none
          | some (v, r3) =>
            match r3.dropWhile jsonWs with
            | ',' :: r4 =>
              (parseJsonMembers fuel r4).map fun p =>
                ((String.mk key, v) :: p.1, p.2)
            | '}' :: r4 => some ([(String.mk key, v)], r4)
            | _ => none
        | _ => none
    | _ => none

/-- Modelled from the spec: one-or-more array elements followed by `]`. -/
def parseJsonElems (fuel : Nat) (s : Chars) : Option (List Json × Chars) :=
  match fuel with
  | 0 => none
  | fuel + 1 =>
    match parseJsonVal fuel s with
    | none => none
    | some (v, r1) =>
      match r1.dropWhile jsonWs with
      | ',' :: r2 => (parseJsonElems fuel r2).map fun p => (v :: p.1, p.2)
      | ']' :: r2 => some ([v], r2)
      | _ => none
end

/-- Modelled from the spec: parse a complete JSON document (value plus
only trailing whitespace), as `serde_json::from_str` requires. -/
def parseJsonText (s : Chars) : Option Json :=
  match parseJsonVal (s.length + 1) s with
  | none => none
  | some (j, rest) => if rest.dropWhile jsonWs = [] then some j else none

/-! ## String utilities from the Rust standard library used by lib.rs -/

/-- Embeds Rust's `str::replace(pat, rep)`: every leftmost, non-overlapping
occurrence of `pat` replaced by `rep` (the empty pattern, unused by the
source, is left alone). -/
def replaceAllAux (pat rep : Chars) : Nat → Chars → Chars
  | _, [] => []
  | 0, s => s
  | fuel + 1, c :: rest =>
    if pat ≠ [] ∧ pat.isPrefixOf (c :: rest) then
      rep ++ replaceAllAux pat rep fuel ((c :: rest).drop pat.length)
    else c :: replaceAllAux pat rep fuel rest

def replaceAll (pat rep s : Chars) : Chars :=
  replaceAllAux pat rep s.length s

/-- Embeds Rust's `str::trim` (restricted to the ASCII whitespace
characters, the only ones arising here). -/
def rustTrim (s : Chars) : Chars :=
  ((s.dropWhile jsonWs).reverse.dropWhile jsonWs).reverse

/-! ## CONNECT / INFO structured payloads (src/lib.rs lines 146-314) -/

/-- Embeds `ConnectionInformation` (CONNECT): field order and serde
attributes as declared in src/lib.rs. -/
structure ConnectionInformation where
  verbose : Bool
  pedantic : Bool
  tls_required : Bool
  auth_token : Option Chars
  user : Option Chars
  pass : Option Chars
  lang : Chars
  name : Chars
  version : Chars
  protocol : Option Nat
  sig : Option Chars
  jwt : Option Chars
  deriving Repr, DecidableEq

/-- Embeds `ServerInformation` (INFO): field order and serde attributes as
declared in src/lib.rs (`auth_required`, `tls_required`, `max_payload`
carry `#[serde(default)]`). -/
structure ServerInformation where
  server_id : Chars
  version : Chars
  proto : Option Nat
  go : Chars
  host : Chars
  port : Nat
  auth_required : Bool
  tls_required : Bool
  max_payload : Nat
  client_id : Option Nat
  connect_urls : Option (List Chars)
  nonce : Option Chars
  deriving Repr, DecidableEq

/-- An optional member of a serialized object: omitted entirely when the
field is absent (serde's `skip_serializing_if = "Option::is_none"`). -/
def optMember (k : String) (v : Option Json) : List (String × Json) :=
  match v with
  | none => []
  | some j => [(k, j)]

/-- Modelled from the spec: the member list of the JSON object a
`ConnectionInformation` serializes to, in field order, absent optional
fields omitted. -/
def connMembers (ci : ConnectionInformation) : List (String × Json) :=
  [("verbose", .bool ci.verbose),
   ("pedantic", .bool ci.pedantic),
   ("tls_required", .bool ci.tls_required)] ++
  optMember "auth_token" (ci.auth_token.map .str) ++
  optMember "user" (ci.user.map .str) ++
  optMember "pass" (ci.pass.map .str) ++
  [("lang", .str ci.lang),
   ("name", .str ci.name),
   ("version", .str ci.version)] ++
  optMember "protocol" (ci.protocol.map .num) ++
  optMember "sig" (ci.sig.map .str) ++
  optMember "jwt" (ci.jwt.map .str)

/-- Modelled from the spec: the JSON object `serde_json::to_string`
serializes a `ConnectionInformation` to. -/
def encodeConnect (ci : ConnectionInformation) : Json :=
  .obj (connMembers ci)

/-- Modelled from the spec: the member list of the JSON object a
`ServerInformation` serializes to. -/
def infoMembers (si : ServerInformation) : List (String × Json) :=
  [("server_id", .str si.server_id),
   ("version", .str si.version)] ++
  optMember "proto" (si.proto.map .num) ++
  [("go", .str si.go),
   ("host", .str si.host),
   ("port", .num si.port),
   ("auth_required", .bool si.auth_required),
   ("tls_required", .bool si.tls_required),
   ("max_payload", .num si.max_payload)] ++
  optMember "client_id" (si.client_id.map .num) ++
  optMember "connect_urls" ((si.connect_urls.map fun us =>
    Json.arr (us.map Json.str))) ++
  optMember "nonce" (si.nonce.map .str)

/-- Modelled from the spec: the JSON object a `ServerInformation`
serializes to. -/
def encodeInfo (si : ServerInformation) : Json :=
  .obj (infoMembers si)

/-- First member bound to key `k` in an object's member list. -/
def findField (k : String) : List (String × Json) → Option Json
  | [] => none
  | kv :: kvs => if kv.1 = k then some kv.2 else findField k kvs

/-- Number of members bound to key `k`. -/
def countKey (k : String) : List (String × Json) → Nat
  | [] => 0
  | kv :: kvs => (if kv.1 = k then 1 else 0) + countKey k kvs

/-- A required `bool` field (missing or mistyped fails). -/
def reqBool (kvs : List (String × Json)) (k : String) : Option Bool :=
  match findField k kvs with
  | some (.bool b) => some b
  | _ => none

/-- A required string field. -/
def reqStr (kvs : List (String × Json)) (k : String) : Option Chars :=
  match findField k kvs with
  | some (.str s) => some s
  | _ => none

/-- A required unsigned-integer field. -/
def reqNum (kvs : List (String × Json)) (k : String) : Option Nat :=
  match findField k kvs with
  | some (.num n) => some n
  | _ => none

/-- An `Option<String>` field: missing or `null` is absent, a string is
present, anything else fails. -/
def optStrField (kvs : List (String × Json)) (k : String) :
    Option (Option Chars) :=
  match findField k kvs with
  | none => some none
  | some .null => some none
  | some (.str s) => some (some s)
  | some _ => none

/-- An `Option<u64>`-style field. -/
def optNumField (kvs : List (String × Json)) (k : String) :
    Option (Option Nat) :=
  match findField k kvs with
  | none => some none
  | some .null => some none
  | some (.num n) => some (some n)
  | some _ => none

/-- Decode a JSON array of strings. -/
def decodeStrList : List Json → Option (List Chars)
  | [] => some []
  | Json.str s :: rest => (decodeStrList rest).map (s :: ·)
  | _ => none

/-- An `Option<Vec<String>>` field. -/
def optStrArrField (kvs : List (String × Json)) (k : String) :
    Option (Option (List Chars)) :=
  match findField k kvs with
  | none => some none
  | some .null => some none
  | some (.arr elems) => (decodeStrList elems).map some
  | some _ => none

/-- A `bool` field with `#[serde(default)]`: missing yields `false`. -/
def dfltBoolField (kvs : List (String × Json)) (k : String) : Option Bool :=
  match findField k kvs with
  | none => some false
  | some (.bool b) => some b
  | _ => none

/-- A `u64` field with `#[serde(default)]`: missing yields `0`. -/
def dfltNumField (kvs : List (String × Json)) (k : String) : Option Nat :=
  match findField k kvs with
  | none => some 0
  | some (.num n) => some n
  | _ => none

/-- Whether none of the given known keys occurs more than once (serde
rejects duplicate known fields). -/
def noDupKeys (ks : List String) (kvs : List (String × Json)) : Bool :=
  ks.all fun k => countKey k kvs ≤ 1

/-- Modelled from the spec: deserializing a `ConnectionInformation` from a
JSON value; required fields must be present with the right type, optional
fields decode to absent when missing, unknown fields are ignored. -/
def decodeConnect : Json → Option ConnectionInformation
  | .obj kvs =>
    if noDupKeys ["verbose", "pedantic", "tls_required", "auth_token",
        "user", "pass", "lang", "name", "version", "protocol", "sig",
        "jwt"] kvs then
      (reqBool kvs "verbose").bind fun verbose =>
      (reqBool kvs "pedantic").bind fun pedantic =>
      (reqBool kvs "tls_required").bind fun tls_required =>
      (optStrField kvs "auth_token").bind fun auth_token =>
      (optStrField kvs "user").bind fun user =>
      (optStrField kvs "pass").bind fun pass =>
      (reqStr kvs "lang").bind fun lang =>
      (reqStr kvs "name").bind fun name =>
      (reqStr kvs "version").bind fun version =>
      (optNumField kvs "protocol").bind fun protocol =>
      (optStrField kvs "sig").bind fun sig =>
      (optStrField kvs "jwt").map fun jwt =>
        { verbose := verbose, pedantic := pedantic,
          tls_required := tls_required, auth_token := auth_token,
          user := user, pass := pass, lang := lang, name := name,
          version := version, protocol := protocol, sig := sig, jwt := jwt }
    else none
  | _ => none

/-- Modelled from the spec: deserializing a `ServerInformation` from a
JSON value (`auth_required`, `tls_required`, `max_payload` default when
missing, per src/lib.rs's `#[serde(default)]`). -/
def decodeInfo : Json → Option ServerInformation
  | .obj kvs =>
    if noDupKeys ["server_id", "version", "proto", "go", "host", "port",
        "auth_required", "tls_required", "max_payload", "client_id",
        "connect_urls", "nonce"] kvs then
      (reqStr kvs "server_id").bind fun server_id =>
      (reqStr kvs "version").bind fun version =>
      (optNumField kvs "proto").bind fun proto =>
      (reqStr kvs "go").bind fun go =>
      (reqStr kvs "host").bind fun host =>
      (reqNum kvs "port").bind fun port =>
      (dfltBoolField kvs "auth_required").bind fun auth_required =>
      (dfltBoolField kvs "tls_required").bind fun tls_required =>
      (dfltNumField kvs "max_payload").bind fun max_payload =>
      (optNumField kvs "client_id").bind fun client_id =>
      (optStrArrField kvs "connect_urls").bind fun connect_urls =>
      (optStrField kvs "nonce").map fun nonce =>
        { server_id := server_id, version := version, proto := proto,
          go := go, host := host, port := port,
          auth_required := auth_required, tls_required := tls_required,
          max_payload := max_payload, client_id := client_id,
          connect_urls := connect_urls, nonce := nonce }
    else none
  | _ => none

/-- Embeds `impl Display for ConnectionInformation`:
`CONNECT <json>\r\n` (the serialization cannot fail here, so the error
branch of the source is unreachable in the model). -/
def ConnectionInformation.render (ci : ConnectionInformation) : Chars :=
  str "CONNECT " ++ jsonChars (encodeConnect ci) ++ crlf

/-- Embeds `impl FromStr for ConnectionInformation`: delete every
occurrence of `"CONNECT "`, trim, JSON-decode. -/
def ConnectionInformation.fromStr (s : Chars) :
    Option ConnectionInformation :=
  (parseJsonText (rustTrim (replaceAll (str "CONNECT ") [] s))).bind
    decodeConnect

/-- Embeds `impl Display for ServerInformation`: `INFO <json>\r\n`. -/
def ServerInformation.render (si : ServerInformation) : Chars :=
  str "INFO " ++ jsonChars (encodeInfo si) ++ crlf

/-- Embeds `impl FromStr for ServerInformation`: delete every occurrence
of `"INFO "`, trim, JSON-decode. -/
def ServerInformation.fromStr (s : Chars) : Option ServerInformation :=
  (parseJsonText (rustTrim (replaceAll (str "INFO ") [] s))).bind decodeInfo

/-! ## The protocol message sum type and its dispatcher (src/lib.rs) -/

/-- Embeds the `ProtocolMessage` enum. -/
inductive ProtocolMessage where
  | Unsubscribe (m : UnsubscribeMessage)
  | Publish (m : PublishMessage)
  | Message (m : DeliveredMessage)
  | Subscribe (m : SubscribeMessage)
  | Ping
  | Pong
  | Ok
  | Error (s : Chars)
  | Info (si : ServerInformation)
  | Connect (ci : ConnectionInformation)
  deriving Repr, DecidableEq

/-- Embeds `impl Display for ProtocolMessage`: each variant's wire form
(`Error` is written without a trailing CRLF, exactly as in the source). -/
def ProtocolMessage.render : ProtocolMessage → Chars
  | .Unsubscribe m => m.render
  | .Subscribe m => m.render
  | .Publish m => m.render
  | .Message m => m.render
  | .Ping => str "PING" ++ crlf
  | .Pong => str "PONG" ++ crlf
  | .Ok => str "+OK" ++ crlf
  | .Error s => str "-ERR '" ++ s ++ str "'"
  | .Info si => si.render
  | .Connect ci => ci.render

/-- Whether `pre` is a prefix of `s` (Rust's `str::starts_with`). -/
def startsWith (pre : String) (s : Chars) : Bool :=
  (str pre).isPrefixOf s

/-- Embeds `impl FromStr for ProtocolMessage`: the keyword dispatch chain,
in source order; `none` models the `NatsParseError` results. -/
def ProtocolMessage.fromStr (s : Chars) : Option ProtocolMessage :=
  if startsWith "UNSUB" s then
    (UnsubscribeMessage.fromStr s).map .Unsubscribe
  else if startsWith "PUB" s then
    (PublishMessage.fromStr s).map .Publish
  else if startsWith "MSG" s then
    (DeliveredMessage.fromStr s).map .Message
  else if startsWith "SUB" s then
    (SubscribeMessage.fromStr s).map .Subscribe
  else if startsWith "PING" s then
    some .Ping
  else if startsWith "PONG" s then
    some .Pong
  else if startsWith "+OK" s then
    some .Ok
  else if startsWith "-ERR" s then
    (parse_err_header s).map fun h => .Error h.message
  else if startsWith "INFO" s then
    (ServerInformation.fromStr s).map .Info
  else if startsWith "CONNECT" s then
    (ConnectionInformation.fromStr s).map .Connect
  else none

/-! ## Specification-side definitions

These follow the spec's words (canonical single-space joining, token
well-formedness, separator runs) and are compared against the code-side
definitions above. -/

/-- Modelled from the spec: fields joined with exactly one space. -/
def joinFields (fs : List Chars) : Chars :=
  (List.intersperse (str " ") fs).flatten

/-- A well-formed protocol token: non-empty, free of space/CR/LF (the
characters `is_not_space` rejects), and not starting with a tab (a leading
tab would be absorbed by the preceding separator run). -/
def goodToken (t : Chars) : Prop :=
  t ≠ [] ∧ (∀ c ∈ t, is_not_space c = true) ∧ t.head? ≠ some '\t'

instance (t : Chars) : Decidable (goodToken t) := by
  unfold goodToken; infer_instance

/-- A separator run: one or more spaces/tabs. -/
def wsRun (w : Chars) : Prop :=
  w ≠ [] ∧ ∀ c ∈ w, c = ' ' ∨ c = '\t'

instance (w : Chars) : Decidable (wsRun w) := by
  unfold wsRun; infer_instance

/-- A separator run that begins with a space. -/
def wsRunSp (w : Chars) : Prop :=
  wsRun w ∧ w.head? = some ' '

instance (w : Chars) : Decidable (wsRunSp w) := by
  unfold wsRunSp; infer_instance

/-- Permitted text after a header's last field: nothing, or a line
terminator. -/
def tailOk (r : Chars) : Prop :=
  r = [] ∨ r.head? = some '\r' ∨ r.head? = some '\n'

instance (r : Chars) : Decidable (tailOk r) := by
  unfold tailOk; infer_instance

/-- Modelled from the spec: "strip the leading keyword" — remove the
keyword prefix only where it leads, leaving the rest of the text
unaltered. Compared against the source's `replaceAll`. -/
def stripLeading (pre s : Chars) : Chars :=
  if pre.isPrefixOf s then s.drop pre.length else s

/-- A CONNECT line whose JSON body repeats the keyword inside a string
value; exercises the keyword-stripping step of
`ConnectionInformation.fromStr`. -/
def c9raw : Chars :=
  str "CONNECT \x7b\"verbose\":false,\"pedantic\":false,\"tls_required\":false,\"lang\":\"go\",\"name\":\"CONNECT go\",\"version\":\"1\"\x7d"

/-- A `ConnectionInformation` with every optional field absent. -/
def c8ci : ConnectionInformation :=
  { verbose := false, pedantic := false, tls_required := false,
    auth_token := none, user := none, pass := none, lang := str "go",
    name := str "n", version := str "1", protocol := none, sig := none,
    jwt := none }

/-! ## Lemmas about the primitive parsers -/

theorem takeWhile_append_eq (p : Char → Bool) (tok rest : Chars)
    (h2 : ∀ c ∈ tok, p c = true)
    (h3 : ∀ c, rest.head? = some c → p c = false) :
    (tok ++ rest).takeWhile p = tok ∧ (tok ++ rest).dropWhile p = rest := by
  induction tok with
  | nil =>
    simp only [List.nil_append]
    cases rest with
    | nil => simp
    | cons r rs =>
      have hr : p r = false := h3 r rfl
      simp [List.takeWhile, List.dropWhile, hr]
  | cons t ts ih =>
    have ht : p t = true := h2 t (List.mem_cons_self t ts)
    have ih2 := ih (fun c hc => h2 c (List.mem_cons_of_mem t hc))
    simp [List.takeWhile, List.dropWhile, ht, ih2.1, ih2.2]

theorem pTakeWhile1_append (p : Char → Bool) (tok rest : Chars)
    (h1 : tok ≠ []) (h2 : ∀ c ∈ tok, p c = true)
    (h3 : ∀ c, rest.head? = some c → p c = false) :
    pTakeWhile1 p (tok ++ rest) = some (tok, rest) := by
  obtain ⟨hT, hD⟩ := takeWhile_append_eq p tok rest h2 h3
  unfold pTakeWhile1
  rw [hT, hD]
  cases tok with
  | nil => exact absurd rfl h1
  | cons a l => rfl

theorem pTakeWhile1_inv (p : Char → Bool) (s tok r : Chars)
    (h : pTakeWhile1 p s = some (tok, r)) :
    tok ≠ [] ∧ (∀ c ∈ tok, p c = true) ∧ s = tok ++ r := by
  unfold pTakeWhile1 at h
  revert h
  cases htk : s.takeWhile p with
  | nil => intro h; cases h
  | cons a l =>
    intro h
    rw [Option.some_inj] at h
    cases h
    refine ⟨by simp, ?_, ?_⟩
    · intro c hc
      rw [← htk] at hc
      exact List.mem_takeWhile_imp hc
    · rw [← htk]
      exact (List.takeWhile_append_dropWhile p s).symm

theorem ptag_append (t rest : Chars) : ptag t (t ++ rest) = some rest := by
  unfold ptag
  have hp : t.isPrefixOf (t ++ rest) = true := by
    rw [List.isPrefixOf_iff_prefix]
    exact ⟨rest, rfl⟩
  rw [if_pos hp, List.drop_left]

theorem pIsA_append (w rest : Chars) (hw : wsRun w)
    (h3 : ∀ c, rest.head? = some c → isWsChar c = false) :
    pIsA (w ++ rest) = some (w, rest) := by
  apply pTakeWhile1_append _ _ _ hw.1 _ h3
  intro c hc
  rcases hw.2 c hc with h | h <;> simp [h, isWsChar]

theorem notWs_head_of_tailOk (rest : Chars) (hr : tailOk rest) :
    ∀ c, rest.head? = some c → isWsChar c = false := by
  intro c hc
  rcases hr with h | h | h
  · subst h; cases hc
  · rw [h] at hc; cases hc; decide
  · rw [h] at hc; cases hc; decide

theorem notDigit_head_of_tailOk (rest : Chars) (hr : tailOk rest) :
    ∀ c, rest.head? = some c → is_digit c = false := by
  intro c hc
  rcases hr with h | h | h
  · subst h; cases hc
  · rw [h] at hc; cases hc; decide
  · rw [h] at hc; cases hc; decide

theorem notNotSpace_head_of_tailOk (rest : Chars) (hr : tailOk rest) :
    ∀ c, rest.head? = some c → is_not_space c = false := by
  intro c hc
  rcases hr with h | h | h
  · subst h; cases hc
  · rw [h] at hc; cases hc; decide
  · rw [h] at hc; cases hc; decide

/-! ## Lemmas about decimal rendering and parsing of numbers -/

theorem char_toNat_ofNat (n : Nat) (h : n.isValidChar) :
    (Char.ofNat n).toNat = n := by
  simp only [Char.ofNat, dif_pos h, Char.ofNatAux, Char.toNat]
  have hlt : n < 4294967296 := by
    rcases h with h | ⟨h1, h2⟩ <;> omega
  simp [UInt32.toNat, BitVec.toNat_ofNat, Nat.mod_eq_of_lt hlt]

theorem digitChar_toNat (d : Nat) (hd : d < 10) :
    (digitChar d).toNat = 48 + d := by
  apply char_toNat_ofNat
  left; omega

theorem is_digit_digitChar (d : Nat) (hd : d < 10) :
    is_digit (digitChar d) = true := by
  interval_cases d <;> decide

theorem digitsVal_from (l : Chars) :
    ∀ a : Nat, l.foldl (fun a c => a * 10 + (c.toNat - 48)) a =
      a * 10 ^ l.length + digitsVal l := by
  induction l with
  | nil => intro a; simp [digitsVal]
  | cons c cs ih =>
    intro a
    simp only [List.foldl_cons, digitsVal]
    rw [ih (a * 10 + (c.toNat - 48)), ih (0 * 10 + (c.toNat - 48))]
    simp [List.length_cons, pow_succ]
    ring

theorem digitsVal_append (a b : Chars) :
    digitsVal (a ++ b) = digitsVal a * 10 ^ b.length + digitsVal b := by
  unfold digitsVal
  rw [List.foldl_append, digitsVal_from b (List.foldl _ 0 a)]
  rfl

theorem digitsVal_natCharsAux (fuel : Nat) :
    ∀ n : Nat, n ≤ fuel → digitsVal (natCharsAux fuel n) = n := by
  induction fuel with
  | zero =>
    intro n hn
    have : n = 0 := by omega
    subst this
    simp [natCharsAux, digitsVal]
  | succ f ih =>
    intro n hn
    by_cases h0 : n = 0
    · subst h0; simp [natCharsAux, digitsVal]
    · rw [natCharsAux, if_neg h0, digitsVal_append]
      have hdiv : n / 10 ≤ f := by omega
      rw [ih (n / 10) hdiv]
      have hmod : n % 10 < 10 := Nat.mod_lt n (by omega)
      have h1 : digitsVal [digitChar (n % 10)] =
          (digitChar (n % 10)).toNat - 48 := by
        simp [digitsVal]
      have hlen : (10 : Nat) ^ ([digitChar (n % 10)]).length = 10 := by simp
      rw [hlen, h1, digitChar_toNat (n % 10) hmod]
      have := Nat.div_add_mod n 10
      omega

theorem digitsVal_natChars (n : Nat) : digitsVal (natChars n) = n := by
  unfold natChars
  by_cases h0 : n = 0
  · subst h0; decide
  · rw [if_neg h0]
    exact digitsVal_natCharsAux n n le_rfl

theorem natCharsAux_all_digit (fuel : Nat) :
    ∀ n c, c ∈ natCharsAux fuel n → is_digit c = true := by
  induction fuel with
  | zero => intro n c hc; simp [natCharsAux] at hc
  | succ f ih =>
    intro n c hc
    rw [natCharsAux] at hc
    by_cases h0 : n = 0
    · rw [if_pos h0] at hc; simp at hc
    · rw [if_neg h0] at hc
      rcases List.mem_append.mp hc with h | h
      · exact ih (n / 10) c h
      · simp at h
        subst h
        exact is_digit_digitChar (n % 10) (Nat.mod_lt n (by omega))

theorem natChars_all_digit (n : Nat) :
    ∀ c ∈ natChars n, is_digit c = true := by
  intro c hc
  unfold natChars at hc
  by_cases h0 : n = 0
  · rw [if_pos h0] at hc; simp at hc; subst hc; decide
  · rw [if_neg h0] at hc
    exact natCharsAux_all_digit n n c hc

theorem natChars_ne_nil (n : Nat) : natChars n ≠ [] := by
  unfold natChars
  by_cases h0 : n = 0
  · rw [if_pos h0]; simp
  · rw [if_neg h0]
    cases n with
    | zero => exact absurd rfl h0
    | succ m =>
      rw [natCharsAux, if_neg h0]
      simp

theorem is_digit_spec (c : Char) (h : is_digit c = true) :
    c = '0' ∨ c = '1' ∨ c = '2' ∨ c = '3' ∨ c = '4' ∨ c = '5' ∨ c = '6' ∨
    c = '7' ∨ c = '8' ∨ c = '9' := by
  unfold is_digit at h
  simp only [Bool.or_eq_true, beq_iff_eq] at h
  tauto

theorem is_digit_not_space (c : Char) (h : is_digit c = true) :
    is_not_space c = true ∧ isWsChar c = false := by
  rcases is_digit_spec c h with h | h | h | h | h | h | h | h | h | h <;>
    subst h <;> exact ⟨by decide, by decide⟩

theorem parse_u64_append (n : Nat) (rest : Chars) (hn : n < 2 ^ 64)
    (h3 : ∀ c, rest.head? = some c → is_digit c = false) :
    parse_u64 (natChars n ++ rest) = some (n, rest) := by
  unfold parse_u64
  rw [pTakeWhile1_append is_digit (natChars n) rest (natChars_ne_nil n)
    (natChars_all_digit n) h3]
  simp only [digitsVal_natChars]
  rw [if_pos hn]

theorem parse_u64_fail (c : Char) (rest : Chars) (hc : is_digit c = false) :
    parse_u64 (c :: rest) = none := by
  unfold parse_u64 pTakeWhile1
  simp [List.takeWhile, hc]

theorem parse_u64_nil : parse_u64 [] = none := by
  decide

/-! ## UTF-8 round trip -/

theorem char_valid_facts (c : Char) :
    c.toNat < 1114112 ∧ ¬(55296 ≤ c.toNat ∧ c.toNat ≤ 57343) := by
  have h : c.toNat.isValidChar := c.valid
  rcases h with h | ⟨h1, h2⟩ <;> constructor <;> omega

theorem utf8DecodeStep_encodeChar (c : Char) (rest : List Nat) :
    utf8DecodeStep (utf8EncodeChar c ++ rest) = some (c, rest) := by
  obtain ⟨hval, hsur⟩ := char_valid_facts c
  have hofnat : Char.ofNat c.toNat = c := Char.ofNat_toNat c
  unfold utf8EncodeChar
  by_cases h1 : c.toNat < 0x80
  · rw [if_pos h1]
    show utf8DecodeStep (c.toNat :: rest) = _
    rw [utf8DecodeStep, if_pos h1, hofnat]
  · rw [if_neg h1]
    by_cases h2 : c.toNat < 0x800
    · rw [if_pos h2]
      show utf8DecodeStep ((0xC0 + c.toNat / 64) :: (0x80 + c.toNat % 64) ::
        rest) = _
      have hd := Nat.div_add_mod c.toNat 64
      have hm : c.toNat % 64 < 64 := Nat.mod_lt _ (by omega)
      rw [utf8DecodeStep]
      rw [if_neg (by omega), if_pos (by constructor <;> omega)]
      rw [utf8Cont2]
      have hv : (0xC0 + c.toNat / 64 - 0xC0) * 64 + (0x80 + c.toNat % 64 - 0x80) =
          c.toNat := by omega
      rw [if_pos (by constructor <;> omega), hv, hofnat]
    · rw [if_neg h2]
      by_cases h3 : c.toNat < 0x10000
      · rw [if_pos h3]
        show utf8DecodeStep ((0xE0 + c.toNat / 4096) ::
          (0x80 + c.toNat / 64 % 64) :: (0x80 + c.toNat % 64) :: rest) = _
        have hd1 := Nat.div_add_mod c.toNat 64
        have hd2 := Nat.div_add_mod (c.toNat / 64) 64
        have hdd : c.toNat / 64 / 64 = c.toNat / 4096 := by
          rw [Nat.div_div_eq_div_mul]
        have hm1 : c.toNat % 64 < 64 := Nat.mod_lt _ (by omega)
        have hm2 : c.toNat / 64 % 64 < 64 := Nat.mod_lt _ (by omega)
        have hv : (0xE0 + c.toNat / 4096 - 0xE0) * 4096 +
            (0x80 + c.toNat / 64 % 64 - 0x80) * 64 +
            (0x80 + c.toNat % 64 - 0x80) = c.toNat := by omega
        rw [utf8DecodeStep]
        rw [if_neg (by omega), if_neg (by omega),
          if_pos (show 0xE0 ≤ 0xE0 + c.toNat / 4096 ∧
            0xE0 + c.toNat / 4096 < 0xF0 by constructor <;> omega)]
        rw [utf8Cont3]
        rw [if_pos (by rw [hv]; refine ⟨by omega, by omega, by omega, by omega,
          by omega, by omega⟩)]
        rw [hv, hofnat]
      · rw [if_neg h3]
        show utf8DecodeStep ((0xF0 + c.toNat / 0x40000) ::
          (0x80 + c.toNat / 4096 % 64) :: (0x80 + c.toNat / 64 % 64) ::
          (0x80 + c.toNat % 64) :: rest) = _
        have hd1 := Nat.div_add_mod c.toNat 64
        have hd2 := Nat.div_add_mod (c.toNat / 64) 64
        have hd3 := Nat.div_add_mod (c.toNat / 4096) 64
        have hdd1 : c.toNat / 64 / 64 = c.toNat / 4096 := by
          rw [Nat.div_div_eq_div_mul]
        have hdd2 : c.toNat / 4096 / 64 = c.toNat / 0x40000 := by
          rw [Nat.div_div_eq_div_mul]
        have hm1 : c.toNat % 64 < 64 := Nat.mod_lt _ (by omega)
        have hm2 : c.toNat / 64 % 64 < 64 := Nat.mod_lt _ (by omega)
        have hm3 : c.toNat / 4096 % 64 < 64 := Nat.mod_lt _ (by omega)
        have hv : (0xF0 + c.toNat / 0x40000 - 0xF0) * 0x40000 +
            (0x80 + c.toNat / 4096 % 64 - 0x80) * 4096 +
            (0x80 + c.toNat / 64 % 64 - 0x80) * 64 +
            (0x80 + c.toNat % 64 - 0x80) = c.toNat := by omega
        rw [utf8DecodeStep]
        rw [if_neg (by omega), if_neg (by omega), if_neg (by omega),
          if_pos (show 0xF0 ≤ 0xF0 + c.toNat / 0x40000 ∧
            0xF0 + c.toNat / 0x40000 < 0xF5 by constructor <;> omega)]
        rw [utf8Cont4]
        rw [if_pos (by rw [hv]; refine ⟨by omega, by omega, by omega, by omega,
          by omega, by omega, by omega, by omega⟩)]
        rw [hv, hofnat]

theorem utf8EncodeChar_ne_nil (c : Char) : utf8EncodeChar c ≠ [] := by
  unfold utf8EncodeChar
  by_cases h1 : c.toNat < 0x80
  · rw [if_pos h1]; simp
  · rw [if_neg h1]
    by_cases h2 : c.toNat < 0x800
    · rw [if_pos h2]; simp
    · rw [if_neg h2]
      by_cases h3 : c.toNat < 0x10000
      · rw [if_pos h3]; simp
      · rw [if_neg h3]; simp

theorem utf8DecodeAux_encode (cs : Chars) :
    ∀ fuel, (utf8Encode cs).length ≤ fuel →
      utf8DecodeAux fuel (utf8Encode cs) = some cs := by
  induction cs with
  | nil =>
    intro fuel _
    show utf8DecodeAux fuel [] = some []
    cases fuel <;> rfl
  | cons c cs ih =>
    intro fuel hfuel
    have henc : utf8Encode (c :: cs) = utf8EncodeChar c ++ utf8Encode cs := rfl
    rw [henc] at hfuel ⊢
    cases hec : utf8EncodeChar c with
    | nil => exact absurd hec (utf8EncodeChar_ne_nil c)
    | cons b bs =>
      rw [hec] at hfuel
      cases fuel with
      | zero => simp at hfuel
      | succ f =>
        rw [List.cons_append, utf8DecodeAux]
        rw [← List.cons_append, ← hec, utf8DecodeStep_encodeChar]
        have hlen : (utf8Encode cs).length ≤ f := by
          simp at hfuel
          omega
        rw [Option.some_bind]
        rw [ih f hlen]
        rfl

theorem utf8Decode_encode (cs : Chars) : utf8Decode (utf8Encode cs) = some cs := by
  exact utf8DecodeAux_encode cs (utf8Encode cs).length le_rfl

theorem vec_to_str_encode (cs : Chars) : vec_to_str (utf8Encode cs) = cs := by
  unfold vec_to_str
  rw [utf8Decode_encode, Option.getD_some]

/-! ## Lemmas about CRLF framing -/

theorem noLF_hasCRLF (s : Chars) (h : ∀ c ∈ s, c ≠ '\n') :
    hasCRLF s = false := by
  induction s with
  | nil => rfl
  | cons c rest ih =>
    rw [hasCRLF]
    have h2 : ∀ c ∈ rest, c ≠ '\n' :=
      fun d hd => h d (List.mem_cons_of_mem c hd)
    rw [ih h2]
    cases rest with
    | nil => simp
    | cons d rest2 =>
      have hd : d ≠ '\n' := h2 d (List.mem_cons_self d rest2)
      simp [hd]

theorem splitCRLF_no_crlf (s : Chars) (h : hasCRLF s = false) :
    splitCRLF s = [s] := by
  induction s with
  | nil => rw [splitCRLF]
  | cons c rest ih =>
    rw [hasCRLF] at h
    simp only [Bool.or_eq_false_iff, Bool.and_eq_false_iff] at h
    rw [splitCRLF]
    have hcond : ¬(c = '\r' ∧ rest.head? = some '\n') := by
      intro ⟨h1, h2⟩
      rcases h.1 with h3 | h3
      · simp [h1] at h3
      · simp [h2] at h3
    rw [if_neg hcond, ih h.2]

theorem splitCRLF_append (a t : Chars) (ha : hasCRLF a = false) :
    splitCRLF (a ++ '\r' :: '\n' :: t) = a :: splitCRLF t := by
  induction a with
  | nil =>
    rw [List.nil_append, splitCRLF]
    rw [if_pos (show '\r' = '\r' ∧ List.head? ('\n' :: t) = some '\n' from ⟨rfl, rfl⟩)]
    rfl
  | cons c a2 ih =>
    rw [hasCRLF] at ha
    simp only [Bool.or_eq_false_iff, Bool.and_eq_false_iff] at ha
    rw [List.cons_append, splitCRLF]
    have hcond : ¬(c = '\r' ∧ (a2 ++ '\r' :: '\n' :: t).head? = some '\n') := by
      intro ⟨h1, h2⟩
      cases a2 with
      | nil => simp at h2
      | cons d a3 =>
        simp at h2
        rcases ha.1 with h3 | h3
        · simp [h1] at h3
        · simp [h2] at h3
    rw [if_neg hcond, ih ha.2]

theorem split_hp_none (s : Chars) (h : hasCRLF s = false) :
    split_header_and_payload s = none := by
  unfold split_header_and_payload
  rw [splitCRLF_no_crlf s h]

theorem split_hp_some (hdr p rest : Chars) (h1 : hasCRLF hdr = false)
    (h2 : hasCRLF p = false) :
    split_header_and_payload (hdr ++ crlf ++ (p ++ crlf ++ rest)) =
      some (hdr, utf8Encode p) := by
  unfold split_header_and_payload
  have e1 : hdr ++ crlf ++ (p ++ crlf ++ rest) =
      hdr ++ '\r' :: '\n' :: (p ++ '\r' :: '\n' :: rest) := by
    simp [crlf]
  rw [e1, splitCRLF_append _ _ h1, splitCRLF_append _ _ h2]

/-! ## Master lemmas for the header grammars -/

theorem head?_append_left (a b : Chars) (ha : a ≠ []) :
    (a ++ b).head? = a.head? := by
  cases a with
  | nil => exact absurd rfl ha
  | cons x xs => rfl

theorem head_mem_of_head? (t : Chars) (c : Char) (h : t.head? = some c) :
    c ∈ t := by
  cases t with
  | nil => cases h
  | cons x xs =>
    simp only [List.head?_cons, Option.some_inj] at h
    subst h
    exact List.mem_cons_self x xs

theorem goodToken_head_not_ws (t : Chars) (ht : goodToken t) :
    ∀ c, t.head? = some c → isWsChar c = false := by
  intro c hc
  have hmem : c ∈ t := head_mem_of_head? t c hc
  have hns : is_not_space c = true := ht.2.1 c hmem
  have hnt : c ≠ '\t' := by
    intro h
    exact ht.2.2 (by rw [hc, h])
  unfold is_not_space at hns
  simp only [Bool.and_eq_true, bne_iff_ne] at hns
  simp only [isWsChar, Bool.or_eq_false_iff, beq_eq_false_iff_ne, ne_eq]
  exact ⟨hns.1.1, hnt⟩

theorem wsRunSp_head_not_token (ws rest : Chars) (h : wsRunSp ws) :
    ∀ c, (ws ++ rest).head? = some c → is_not_space c = false := by
  intro c hc
  rw [head?_append_left ws rest h.1.1, h.2] at hc
  cases hc
  decide

theorem pIsA_none (s : Chars)
    (h : ∀ c, s.head? = some c → isWsChar c = false) :
    pIsA s = none := by
  cases s with
  | nil => rfl
  | cons c rest =>
    have hc := h c rfl
    unfold pIsA pTakeWhile1
    simp only [List.takeWhile_cons, hc]
    rfl

theorem optTokenSep_token (tok ws rest : Chars) (h1 : tok ≠ [])
    (h2 : ∀ c ∈ tok, is_not_space c = true) (hws : wsRunSp ws)
    (hrest : ∀ c, rest.head? = some c → isWsChar c = false) :
    optTokenSep (tok ++ (ws ++ rest)) = (some tok, rest) := by
  have e1 : parse_completestr (tok ++ (ws ++ rest)) = some (tok, ws ++ rest) :=
    pTakeWhile1_append is_not_space tok (ws ++ rest) h1 h2
      (wsRunSp_head_not_token ws rest hws)
  have e2 : pIsA (ws ++ rest) = some (ws, rest) :=
    pIsA_append ws rest hws.1 hrest
  unfold optTokenSep
  rw [e1, Option.elim_some]
  simp only [e2, Option.elim_some]

theorem optTokenSep_backtrack (tok rest : Chars) (h1 : tok ≠ [])
    (h2 : ∀ c ∈ tok, is_not_space c = true)
    (h3 : ∀ c, rest.head? = some c → is_not_space c = false)
    (h4 : ∀ c, rest.head? = some c → isWsChar c = false) :
    optTokenSep (tok ++ rest) = (none, tok ++ rest) := by
  have e1 : parse_completestr (tok ++ rest) = some (tok, rest) :=
    pTakeWhile1_append is_not_space tok rest h1 h2 h3
  have e2 : pIsA rest = none := pIsA_none rest h4
  unfold optTokenSep
  rw [e1, Option.elim_some]
  simp only [e2, Option.elim_none]

theorem optTokenSep_fail (s : Chars)
    (h : ∀ c, s.head? = some c → is_not_space c = false) :
    optTokenSep s = (none, s) := by
  have e1 : parse_completestr s = none := by
    cases s with
    | nil => rfl
    | cons c rest =>
      have hc := h c rfl
      unfold parse_completestr pTakeWhile1
      simp only [List.takeWhile_cons, hc]
      rfl
  unfold optTokenSep
  rw [e1, Option.elim_none]

theorem optConsume_run (ws rest : Chars) (h : wsRun ws)
    (hrest : ∀ c, rest.head? = some c → isWsChar c = false) :
    optConsume (ws ++ rest) = rest := by
  unfold optConsume
  rw [pIsA_append ws rest h hrest, Option.elim_some]

theorem optConsume_skip (s : Chars)
    (h : ∀ c, s.head? = some c → isWsChar c = false) :
    optConsume s = s := by
  unfold optConsume
  rw [pIsA_none s h, Option.elim_none]

theorem natChars_head_not_ws (n : Nat) :
    ∀ c, (natChars n).head? = some c → isWsChar c = false := by
  intro c hc
  have hd : is_digit c = true :=
    natChars_all_digit n c (head_mem_of_head? _ c hc)
  exact (is_digit_not_space c hd).2

theorem digits_head_not_ws (n : Nat) (rest : Chars) :
    ∀ c, (natChars n ++ rest).head? = some c → isWsChar c = false := by
  intro c hc
  rw [head?_append_left _ _ (natChars_ne_nil n)] at hc
  exact natChars_head_not_ws n c hc

theorem optTokenSep_digits (sid : Nat) (rest : Chars) (hrest : tailOk rest) :
    optTokenSep (natChars sid ++ rest) = (none, natChars sid ++ rest) :=
  optTokenSep_backtrack _ _ (natChars_ne_nil sid)
    (fun c hc => (is_digit_not_space c (natChars_all_digit sid c hc)).1)
    (notNotSpace_head_of_tailOk rest hrest)
    (notWs_head_of_tailOk rest hrest)

/-- Core of the SUB grammar lemma: `mid` stands for the optional
queue-group field together with its trailing separator run. -/
theorem sub_header_core (ws1 ws2 : Chars) (subj mid : Chars)
    (qg : Option Chars) (sid : Nat) (rest : Chars)
    (h1 : wsRun ws1) (hsub : goodToken subj) (h2 : wsRunSp ws2)
    (hmid : ∀ c, (mid ++ (natChars sid ++ rest)).head? = some c →
      isWsChar c = false)
    (hopt : optTokenSep (mid ++ (natChars sid ++ rest)) =
      (qg, natChars sid ++ rest))
    (hsid : sid < 2 ^ 64) (hrest : tailOk rest) :
    sub_header (str "SUB" ++ (ws1 ++ (subj ++ (ws2 ++
      (mid ++ (natChars sid ++ rest)))))) =
      some ({ subject := subj, queue_group := qg, sid := sid }, rest) := by
  have e0 := ptag_append (str "SUB")
    (ws1 ++ (subj ++ (ws2 ++ (mid ++ (natChars sid ++ rest)))))
  have e1 : pIsA (ws1 ++ (subj ++ (ws2 ++ (mid ++ (natChars sid ++ rest))))) =
      some (ws1, subj ++ (ws2 ++ (mid ++ (natChars sid ++ rest)))) := by
    apply pIsA_append _ _ h1
    intro c hc
    rw [head?_append_left _ _ hsub.1] at hc
    exact goodToken_head_not_ws subj hsub c hc
  have e2 : parse_completestr (subj ++ (ws2 ++ (mid ++
      (natChars sid ++ rest)))) = some (subj, ws2 ++ (mid ++
      (natChars sid ++ rest))) :=
    pTakeWhile1_append is_not_space _ _ hsub.1 hsub.2.1
      (wsRunSp_head_not_token ws2 _ h2)
  have e3 : pIsA (ws2 ++ (mid ++ (natChars sid ++ rest))) =
      some (ws2, mid ++ (natChars sid ++ rest)) :=
    pIsA_append _ _ h2.1 hmid
  have e5 : parse_u64 (natChars sid ++ rest) = some (sid, rest) :=
    parse_u64_append sid rest hsid (notDigit_head_of_tailOk rest hrest)
  simp only [sub_header, e0, Option.some_bind, e1, e2, e3, hopt, e5,
    Option.map_some']

/-- The SUB grammar with no queue group. -/
theorem sub_header_spec_none (ws1 ws2 : Chars) (subj : Chars) (sid : Nat)
    (rest : Chars) (h1 : wsRun ws1) (hsub : goodToken subj) (h2 : wsRunSp ws2)
    (hsid : sid < 2 ^ 64) (hrest : tailOk rest) :
    sub_header (str "SUB" ++ (ws1 ++ (subj ++ (ws2 ++
      (natChars sid ++ rest))))) =
      some ({ subject := subj, queue_group := none, sid := sid }, rest) := by
  have := sub_header_core ws1 ws2 subj [] none sid rest h1 hsub h2
    (by simpa using digits_head_not_ws sid rest)
    (by simpa using optTokenSep_digits sid rest hrest) hsid hrest
  simpa using this

/-- The SUB grammar with a queue group. -/
theorem sub_header_spec_some (ws1 ws2 ws3 : Chars) (subj q : Chars)
    (sid : Nat) (rest : Chars) (h1 : wsRun ws1) (hsub : goodToken subj)
    (h2 : wsRunSp ws2) (hq : goodToken q) (h3 : wsRunSp ws3)
    (hsid : sid < 2 ^ 64) (hrest : tailOk rest) :
    sub_header (str "SUB" ++ (ws1 ++ (subj ++ (ws2 ++
      (q ++ (ws3 ++ (natChars sid ++ rest))))))) =
      some ({ subject := subj, queue_group := some q, sid := sid }, rest) := by
  have hassoc : q ++ (ws3 ++ (natChars sid ++ rest)) =
      (q ++ ws3) ++ (natChars sid ++ rest) := by
    rw [List.append_assoc]
  have hmid : ∀ c, ((q ++ ws3) ++ (natChars sid ++ rest)).head? = some c →
      isWsChar c = false := by
    intro c hc
    rw [List.append_assoc, head?_append_left _ _ hq.1] at hc
    exact goodToken_head_not_ws q hq c hc
  have hopt : optTokenSep ((q ++ ws3) ++ (natChars sid ++ rest)) =
      (some q, natChars sid ++ rest) := by
    rw [List.append_assoc]
    exact optTokenSep_token q ws3 (natChars sid ++ rest) hq.1 hq.2.1 h3
      (digits_head_not_ws sid rest)
  have := sub_header_core ws1 ws2 subj (q ++ ws3) (some q) sid rest h1 hsub h2
    hmid hopt hsid hrest
  rw [hassoc]
  exact this
theorem head_cond_append (a b : Chars) (ha : a ≠ []) (P : Char → Prop)
    (h : ∀ c, a.head? = some c → P c) :
    ∀ c, (a ++ b).head? = some c → P c := by
  intro c hc
  rw [head?_append_left _ _ ha] at hc
  exact h c hc

theorem wsRun_head_not_digit (w : Chars) (h : wsRun w) :
    ∀ c, w.head? = some c → is_digit c = false := by
  intro c hc
  rcases h.2 c (head_mem_of_head? w c hc) with h2 | h2 <;> subst h2 <;> decide

theorem parse_u64_tailOk (r : Chars) (hr : tailOk r) : parse_u64 r = none := by
  rcases hr with h | h | h
  · subst h; exact parse_u64_nil
  · cases r with
    | nil => cases h
    | cons c rest =>
      simp only [List.head?_cons, Option.some_inj] at h
      subst h
      exact parse_u64_fail _ _ (by decide)
  · cases r with
    | nil => cases h
    | cons c rest =>
      simp only [List.head?_cons, Option.some_inj] at h
      subst h
      exact parse_u64_fail _ _ (by decide)

/-- Core of the PUB grammar lemma: `mid` stands for the optional reply-to
field together with its trailing separator run. -/
theorem pub_header_core (ws1 ws2 : Chars) (subj mid : Chars)
    (rt : Option Chars) (len : Nat) (rest : Chars)
    (h1 : wsRun ws1) (hsub : goodToken subj) (h2 : wsRunSp ws2)
    (hmid : ∀ c, (mid ++ (natChars len ++ rest)).head? = some c →
      isWsChar c = false)
    (hopt : optTokenSep (mid ++ (natChars len ++ rest)) =
      (rt, natChars len ++ rest))
    (hlen : len < 2 ^ 64) (hrest : tailOk rest) :
    pub_header (str "PUB" ++ (ws1 ++ (subj ++ (ws2 ++
      (mid ++ (natChars len ++ rest)))))) =
      some ({ subject := subj, reply_to := rt, message_len := len }, rest) := by
  have e0 := ptag_append (str "PUB")
    (ws1 ++ (subj ++ (ws2 ++ (mid ++ (natChars len ++ rest)))))
  have e1 : pIsA (ws1 ++ (subj ++ (ws2 ++ (mid ++ (natChars len ++ rest))))) =
      some (ws1, subj ++ (ws2 ++ (mid ++ (natChars len ++ rest)))) :=
    pIsA_append _ _ h1 (head_cond_append _ _ hsub.1 _
      (goodToken_head_not_ws subj hsub))
  have e2 : parse_completestr (subj ++ (ws2 ++ (mid ++
      (natChars len ++ rest)))) = some (subj, ws2 ++ (mid ++
      (natChars len ++ rest))) :=
    pTakeWhile1_append is_not_space _ _ hsub.1 hsub.2.1
      (wsRunSp_head_not_token ws2 _ h2)
  have e3 : pIsA (ws2 ++ (mid ++ (natChars len ++ rest))) =
      some (ws2, mid ++ (natChars len ++ rest)) :=
    pIsA_append _ _ h2.1 hmid
  have e5 : parse_u64 (natChars len ++ rest) = some (len, rest) :=
    parse_u64_append len rest hlen (notDigit_head_of_tailOk rest hrest)
  simp only [pub_header, e0, Option.some_bind, e1, e2, e3, hopt, e5,
    Option.map_some']

/-- The PUB grammar with no reply-to. -/
theorem pub_header_spec_none (ws1 ws2 : Chars) (subj : Chars) (len : Nat)
    (rest : Chars) (h1 : wsRun ws1) (hsub : goodToken subj) (h2 : wsRunSp ws2)
    (hlen : len < 2 ^ 64) (hrest : tailOk rest) :
    pub_header (str "PUB" ++ (ws1 ++ (subj ++ (ws2 ++
      (natChars len ++ rest))))) =
      some ({ subject := subj, reply_to := none, message_len := len },
        rest) := by
  have := pub_header_core ws1 ws2 subj [] none len rest h1 hsub h2
    (by simpa using digits_head_not_ws len rest)
    (by simpa using optTokenSep_digits len rest hrest) hlen hrest
  simpa using this

/-- The PUB grammar with a reply-to. -/
theorem pub_header_spec_some (ws1 ws2 ws3 : Chars) (subj rt : Chars)
    (len : Nat) (rest : Chars) (h1 : wsRun ws1) (hsub : goodToken subj)
    (h2 : wsRunSp ws2) (hrt : goodToken rt) (h3 : wsRunSp ws3)
    (hlen : len < 2 ^ 64) (hrest : tailOk rest) :
    pub_header (str "PUB" ++ (ws1 ++ (subj ++ (ws2 ++
      (rt ++ (ws3 ++ (natChars len ++ rest))))))) =
      some ({ subject := subj, reply_to := some rt, message_len := len },
        rest) := by
  have hmid : ∀ c, ((rt ++ ws3) ++ (natChars len ++ rest)).head? = some c →
      isWsChar c = false := by
    rw [List.append_assoc]
    exact head_cond_append _ _ hrt.1 _ (goodToken_head_not_ws rt hrt)
  have hopt : optTokenSep ((rt ++ ws3) ++ (natChars len ++ rest)) =
      (some rt, natChars len ++ rest) := by
    rw [List.append_assoc]
    exact optTokenSep_token rt ws3 (natChars len ++ rest) hrt.1 hrt.2.1 h3
      (digits_head_not_ws len rest)
  have := pub_header_core ws1 ws2 subj (rt ++ ws3) (some rt) len rest h1 hsub
    h2 hmid hopt hlen hrest
  rw [show rt ++ (ws3 ++ (natChars len ++ rest)) =
    (rt ++ ws3) ++ (natChars len ++ rest) from
    (List.append_assoc rt ws3 _).symm]
  exact this

/-- Core of the MSG grammar lemma. -/
theorem msg_header_core (ws1 ws2 ws3 : Chars) (subj mid : Chars)
    (rt : Option Chars) (sid len : Nat) (rest : Chars)
    (h1 : wsRun ws1) (hsub : goodToken subj) (h2 : wsRunSp ws2)
    (h3 : wsRun ws3) (hsid : sid < 2 ^ 64)
    (hmid : ∀ c, (mid ++ (natChars len ++ rest)).head? = some c →
      isWsChar c = false)
    (hopt : optTokenSep (mid ++ (natChars len ++ rest)) =
      (rt, natChars len ++ rest))
    (hlen : len < 2 ^ 64) (hrest : tailOk rest) :
    msg_header (str "MSG" ++ (ws1 ++ (subj ++ (ws2 ++ (natChars sid ++
      (ws3 ++ (mid ++ (natChars len ++ rest)))))))) =
      some ({ subject := subj, sid := sid, reply_to := rt,
              message_len := len }, rest) := by
  have e0 := ptag_append (str "MSG")
    (ws1 ++ (subj ++ (ws2 ++ (natChars sid ++
      (ws3 ++ (mid ++ (natChars len ++ rest)))))))
  have e1 : pIsA (ws1 ++ (subj ++ (ws2 ++ (natChars sid ++
      (ws3 ++ (mid ++ (natChars len ++ rest))))))) =
      some (ws1, subj ++ (ws2 ++ (natChars sid ++
      (ws3 ++ (mid ++ (natChars len ++ rest)))))) :=
    pIsA_append _ _ h1 (head_cond_append _ _ hsub.1 _
      (goodToken_head_not_ws subj hsub))
  have e2 : parse_completestr (subj ++ (ws2 ++ (natChars sid ++
      (ws3 ++ (mid ++ (natChars len ++ rest)))))) =
      some (subj, ws2 ++ (natChars sid ++
      (ws3 ++ (mid ++ (natChars len ++ rest))))) :=
    pTakeWhile1_append is_not_space _ _ hsub.1 hsub.2.1
      (wsRunSp_head_not_token ws2 _ h2)
  have e3 : pIsA (ws2 ++ (natChars sid ++ (ws3 ++ (mid ++
      (natChars len ++ rest))))) = some (ws2, natChars sid ++
      (ws3 ++ (mid ++ (natChars len ++ rest)))) :=
    pIsA_append _ _ h2.1 (digits_head_not_ws sid _)
  have e4 : parse_u64 (natChars sid ++ (ws3 ++ (mid ++
      (natChars len ++ rest)))) = some (sid, ws3 ++ (mid ++
      (natChars len ++ rest))) :=
    parse_u64_append sid _ hsid (head_cond_append _ _ h3.1 _
      (wsRun_head_not_digit ws3 h3))
  have e5 : pIsA (ws3 ++ (mid ++ (natChars len ++ rest))) =
      some (ws3, mid ++ (natChars len ++ rest)) :=
    pIsA_append _ _ h3 hmid
  have e7 : parse_u64 (natChars len ++ rest) = some (len, rest) :=
    parse_u64_append len rest hlen (notDigit_head_of_tailOk rest hrest)
  simp only [msg_header, e0, Option.some_bind, e1, e2, e3, e4, e5, hopt, e7,
    Option.map_some']

/-- The MSG grammar with no reply-to. -/
theorem msg_header_spec_none (ws1 ws2 ws3 : Chars) (subj : Chars)
    (sid len : Nat) (rest : Chars) (h1 : wsRun ws1) (hsub : goodToken subj)
    (h2 : wsRunSp ws2) (h3 : wsRun ws3) (hsid : sid < 2 ^ 64)
    (hlen : len < 2 ^ 64) (hrest : tailOk rest) :
    msg_header (str "MSG" ++ (ws1 ++ (subj ++ (ws2 ++ (natChars sid ++
      (ws3 ++ (natChars len ++ rest))))))) =
      some ({ subject := subj, sid := sid, reply_to := none,
              message_len := len }, rest) := by
  have := msg_header_core ws1 ws2 ws3 subj [] none sid len rest h1 hsub h2 h3
    hsid (by simpa using digits_head_not_ws len rest)
    (by simpa using optTokenSep_digits len rest hrest) hlen hrest
  simpa using this

/-- The MSG grammar with a reply-to. -/
theorem msg_header_spec_some (ws1 ws2 ws3 ws4 : Chars) (subj rt : Chars)
    (sid len : Nat) (rest : Chars) (h1 : wsRun ws1) (hsub : goodToken subj)
    (h2 : wsRunSp ws2) (h3 : wsRun ws3) (hrt : goodToken rt) (h4 : wsRunSp ws4)
    (hsid : sid < 2 ^ 64) (hlen : len < 2 ^ 64) (hrest : tailOk rest) :
    msg_header (str "MSG" ++ (ws1 ++ (subj ++ (ws2 ++ (natChars sid ++
      (ws3 ++ (rt ++ (ws4 ++ (natChars len ++ rest))))))))) =
      some ({ subject := subj, sid := sid, reply_to := some rt,
              message_len := len }, rest) := by
  have hmid : ∀ c, ((rt ++ ws4) ++ (natChars len ++ rest)).head? = some c →
      isWsChar c = false := by
    rw [List.append_assoc]
    exact head_cond_append _ _ hrt.1 _ (goodToken_head_not_ws rt hrt)
  have hopt : optTokenSep ((rt ++ ws4) ++ (natChars len ++ rest)) =
      (some rt, natChars len ++ rest) := by
    rw [List.append_assoc]
    exact optTokenSep_token rt ws4 (natChars len ++ rest) hrt.1 hrt.2.1 h4
      (digits_head_not_ws len rest)
  have := msg_header_core ws1 ws2 ws3 subj (rt ++ ws4) (some rt) sid len rest
    h1 hsub h2 h3 hsid hmid hopt hlen hrest
  rw [show rt ++ (ws4 ++ (natChars len ++ rest)) =
    (rt ++ ws4) ++ (natChars len ++ rest) from
    (List.append_assoc rt ws4 _).symm]
  exact this

/-- The UNSUB grammar with no max-messages and nothing after the id. -/
theorem unsub_header_spec_none (ws1 : Chars) (sid : Nat) (rest : Chars)
    (h1 : wsRun ws1) (hsid : sid < 2 ^ 64) (hrest : tailOk rest) :
    unsub_header (str "UNSUB" ++ (ws1 ++ (natChars sid ++ rest))) =
      some ({ sid := sid, max_messages := none }, rest) := by
  have e0 := ptag_append (str "UNSUB") (ws1 ++ (natChars sid ++ rest))
  have e1 : pIsA (ws1 ++ (natChars sid ++ rest)) =
      some (ws1, natChars sid ++ rest) :=
    pIsA_append _ _ h1 (digits_head_not_ws sid rest)
  have e2 : parse_u64 (natChars sid ++ rest) = some (sid, rest) :=
    parse_u64_append sid rest hsid (notDigit_head_of_tailOk rest hrest)
  have e3 : optConsume rest = rest :=
    optConsume_skip rest (notWs_head_of_tailOk rest hrest)
  have e4 : parse_u64 rest = none := parse_u64_tailOk rest hrest
  simp only [unsub_header, e0, Option.some_bind, e1, e2, e3, e4,
    Option.elim_none]

/-- The UNSUB grammar with a max-messages field. -/
theorem unsub_header_spec_some (ws1 ws2 : Chars) (sid m : Nat) (rest : Chars)
    (h1 : wsRun ws1) (h2 : wsRun ws2) (hsid : sid < 2 ^ 64) (hm : m < 2 ^ 64)
    (hrest : tailOk rest) :
    unsub_header (str "UNSUB" ++ (ws1 ++ (natChars sid ++
      (ws2 ++ (natChars m ++ rest))))) =
      some ({ sid := sid, max_messages := some m }, rest) := by
  have e0 := ptag_append (str "UNSUB")
    (ws1 ++ (natChars sid ++ (ws2 ++ (natChars m ++ rest))))
  have e1 : pIsA (ws1 ++ (natChars sid ++ (ws2 ++ (natChars m ++ rest)))) =
      some (ws1, natChars sid ++ (ws2 ++ (natChars m ++ rest))) :=
    pIsA_append _ _ h1 (digits_head_not_ws sid _)
  have e2 : parse_u64 (natChars sid ++ (ws2 ++ (natChars m ++ rest))) =
      some (sid, ws2 ++ (natChars m ++ rest)) :=
    parse_u64_append sid _ hsid (head_cond_append _ _ h2.1 _
      (wsRun_head_not_digit ws2 h2))
  have e3 : optConsume (ws2 ++ (natChars m ++ rest)) = natChars m ++ rest :=
    optConsume_run ws2 _ h2 (digits_head_not_ws m rest)
  have e4 : parse_u64 (natChars m ++ rest) = some (m, rest) :=
    parse_u64_append m rest hm (notDigit_head_of_tailOk rest hrest)
  simp only [unsub_header, e0, Option.some_bind, e1, e2, e3, e4,
    Option.elim_some]

/-- The UNSUB grammar when a non-numeric token follows the id: the
`opt!` combinators backtrack and the parse succeeds with no
max-messages, leaving the token unconsumed. -/
theorem unsub_header_spec_garbage (ws1 ws2 : Chars) (sid : Nat) (c : Char)
    (rest2 : Chars) (h1 : wsRun ws1) (h2 : wsRun ws2) (hsid : sid < 2 ^ 64)
    (hc1 : is_digit c = false) (hc2 : isWsChar c = false) :
    unsub_header (str "UNSUB" ++ (ws1 ++ (natChars sid ++
      (ws2 ++ (c :: rest2))))) =
      some ({ sid := sid, max_messages := none }, c :: rest2) := by
  have e0 := ptag_append (str "UNSUB")
    (ws1 ++ (natChars sid ++ (ws2 ++ (c :: rest2))))
  have e1 : pIsA (ws1 ++ (natChars sid ++ (ws2 ++ (c :: rest2)))) =
      some (ws1, natChars sid ++ (ws2 ++ (c :: rest2))) :=
    pIsA_append _ _ h1 (digits_head_not_ws sid _)
  have e2 : parse_u64 (natChars sid ++ (ws2 ++ (c :: rest2))) =
      some (sid, ws2 ++ (c :: rest2)) :=
    parse_u64_append sid _ hsid (head_cond_append _ _ h2.1 _
      (wsRun_head_not_digit ws2 h2))
  have e3 : optConsume (ws2 ++ (c :: rest2)) = c :: rest2 :=
    optConsume_run ws2 _ h2 (by
      intro d hd
      simp only [List.head?_cons, Option.some_inj] at hd
      subst hd
      exact hc2)
  have e4 : parse_u64 (c :: rest2) = none := parse_u64_fail c rest2 hc1
  simp only [unsub_header, e0, Option.some_bind, e1, e2, e3, e4,
    Option.elim_none]

/-- The UNSUB grammar fails when a non-numeric, non-separator character
stands where the subscription id must be. -/
theorem unsub_header_spec_fail (ws1 : Chars) (c : Char) (rest2 : Chars)
    (h1 : wsRun ws1) (hc1 : is_digit c = false) (hc2 : isWsChar c = false) :
    unsub_header (str "UNSUB" ++ (ws1 ++ (c :: rest2))) = none := by
  have e0 := ptag_append (str "UNSUB") (ws1 ++ (c :: rest2))
  have e1 : pIsA (ws1 ++ (c :: rest2)) = some (ws1, c :: rest2) :=
    pIsA_append _ _ h1 (by
      intro d hd
      simp only [List.head?_cons, Option.some_inj] at hd
      subst hd
      exact hc2)
  have e2 : parse_u64 (c :: rest2) = none := parse_u64_fail c rest2 hc1
  simp only [unsub_header, e0, Option.some_bind, e1, e2, Option.none_bind]

/-- The ERR grammar on a well-formed error header. -/
theorem err_header_spec (msg rest : Chars) (h1 : msg ≠ [])
    (h2 : ∀ c ∈ msg, is_not_tick c = true) :
    err_header (str "-ERR '" ++ (msg ++ ('\'' :: rest))) =
      some ({ message := msg }, rest) := by
  have e0 := ptag_append (str "-ERR '") (msg ++ ('\'' :: rest))
  have e1 : pTakeWhile1 is_not_tick (msg ++ ('\'' :: rest)) =
      some (msg, '\'' :: rest) :=
    pTakeWhile1_append is_not_tick msg _ h1 h2 (by
      intro c hc
      simp only [List.head?_cons, Option.some_inj] at hc
      subst hc
      decide)
  have e2 : pChar '\'' ('\'' :: rest) = some rest := by
    simp [pChar]
  simp only [err_header, e0, Option.some_bind, e1, e2, Option.map_some']

/-! ## Round trip of the CONNECT / INFO schema codecs -/

theorem findField_append (k : String) (a b : List (String × Json)) :
    findField k (a ++ b) = Option.elim (findField k a) (findField k b) some := by
  induction a with
  | nil => simp [findField]
  | cons kv a2 ih =>
    by_cases h : kv.1 = k
    · simp [findField, h]
    · simp [findField, h, ih]

theorem countKey_append (k : String) (a b : List (String × Json)) :
    countKey k (a ++ b) = countKey k a + countKey k b := by
  induction a with
  | nil => simp [countKey]
  | cons kv a2 ih =>
    simp only [List.cons_append, countKey, ih, List.append_eq]
    omega

theorem findField_optMember_self (k : String) (v : Option Json) :
    findField k (optMember k v) = v := by
  cases v with
  | none => rfl
  | some j => simp [optMember, findField]

theorem findField_optMember_ne (k k2 : String) (v : Option Json)
    (h : ¬(k2 = k)) : findField k (optMember k2 v) = none := by
  cases v with
  | none => rfl
  | some j => simp [optMember, findField, h]

theorem countKey_optMember_self (k : String) (v : Option Json) :
    countKey k (optMember k v) = if v.isSome then 1 else 0 := by
  cases v with
  | none => rfl
  | some j => simp [optMember, countKey]

theorem countKey_optMember_ne (k k2 : String) (v : Option Json)
    (h : ¬(k2 = k)) : countKey k (optMember k2 v) = 0 := by
  cases v with
  | none => rfl
  | some j => simp [optMember, countKey, h]

theorem elim_none_some (o : Option Json) : o.elim none some = o := by
  cases o <;> rfl

theorem optStrField_of_find (kvs : List (String × Json)) (k : String)
    (v : Option Chars) (h : findField k kvs = v.map Json.str) :
    optStrField kvs k = some v := by
  unfold optStrField
  rw [h]
  cases v <;> rfl

theorem optNumField_of_find (kvs : List (String × Json)) (k : String)
    (v : Option Nat) (h : findField k kvs = v.map Json.num) :
    optNumField kvs k = some v := by
  unfold optNumField
  rw [h]
  cases v <;> rfl

theorem decodeStrList_map (us : List Chars) :
    decodeStrList (us.map Json.str) = some us := by
  induction us with
  | nil => rfl
  | cons u us2 ih =>
    show decodeStrList (Json.str u :: us2.map Json.str) = _
    rw [decodeStrList, ih]
    rfl

theorem optStrArrField_of_find (kvs : List (String × Json)) (k : String)
    (v : Option (List Chars))
    (h : findField k kvs = v.map fun us => Json.arr (us.map Json.str)) :
    optStrArrField kvs k = some v := by
  unfold optStrArrField
  rw [h]
  cases v with
  | none => rfl
  | some us =>
    simp only [Option.map_some']
    rw [decodeStrList_map]
    rfl

theorem reqBool_of_find (kvs : List (String × Json)) (k : String) (b : Bool)
    (h : findField k kvs = some (.bool b)) : reqBool kvs k = some b := by
  unfold reqBool
  rw [h]

theorem reqStr_of_find (kvs : List (String × Json)) (k : String) (s : Chars)
    (h : findField k kvs = some (.str s)) : reqStr kvs k = some s := by
  unfold reqStr
  rw [h]

theorem reqNum_of_find (kvs : List (String × Json)) (k : String) (n : Nat)
    (h : findField k kvs = some (.num n)) : reqNum kvs k = some n := by
  unfold reqNum
  rw [h]

theorem dfltBool_of_find (kvs : List (String × Json)) (k : String) (b : Bool)
    (h : findField k kvs = some (.bool b)) : dfltBoolField kvs k = some b := by
  unfold dfltBoolField
  rw [h]

theorem dfltNum_of_find (kvs : List (String × Json)) (k : String) (n : Nat)
    (h : findField k kvs = some (.num n)) : dfltNumField kvs k = some n := by
  unfold dfltNumField
  rw [h]

theorem connFind_verbose (ci : ConnectionInformation) :
    findField "verbose" (connMembers ci) = some (.bool ci.verbose) := by
  simp +decide [connMembers, findField, findField_append,
    findField_optMember_ne]

theorem connFind_pedantic (ci : ConnectionInformation) :
    findField "pedantic" (connMembers ci) = some (.bool ci.pedantic) := by
  simp +decide [connMembers, findField, findField_append,
    findField_optMember_ne]

theorem connFind_tls_required (ci : ConnectionInformation) :
    findField "tls_required" (connMembers ci) = some (.bool ci.tls_required) := by
  simp +decide [connMembers, findField, findField_append,
    findField_optMember_ne]

theorem connFind_auth_token (ci : ConnectionInformation) :
    findField "auth_token" (connMembers ci) = ci.auth_token.map Json.str := by
  simp +decide [connMembers, findField, findField_append,
    findField_optMember_ne, findField_optMember_self, elim_none_some]

theorem connFind_user (ci : ConnectionInformation) :
    findField "user" (connMembers ci) = ci.user.map Json.str := by
  simp +decide [connMembers, findField, findField_append,
    findField_optMember_ne, findField_optMember_self, elim_none_some]

theorem connFind_pass (ci : ConnectionInformation) :
    findField "pass" (connMembers ci) = ci.pass.map Json.str := by
  simp +decide [connMembers, findField, findField_append,
    findField_optMember_ne, findField_optMember_self, elim_none_some]

theorem connFind_lang (ci : ConnectionInformation) :
    findField "lang" (connMembers ci) = some (.str ci.lang) := by
  simp +decide [connMembers, findField, findField_append,
    findField_optMember_ne]

theorem connFind_name (ci : ConnectionInformation) :
    findField "name" (connMembers ci) = some (.str ci.name) := by
  simp +decide [connMembers, findField, findField_append,
    findField_optMember_ne]

theorem connFind_version (ci : ConnectionInformation) :
    findField "version" (connMembers ci) = some (.str ci.version) := by
  simp +decide [connMembers, findField, findField_append,
    findField_optMember_ne]

theorem connFind_protocol (ci : ConnectionInformation) :
    findField "protocol" (connMembers ci) = ci.protocol.map Json.num := by
  simp +decide [connMembers, findField, findField_append,
    findField_optMember_ne, findField_optMember_self, elim_none_some]

theorem connFind_sig (ci : ConnectionInformation) :
    findField "sig" (connMembers ci) = ci.sig.map Json.str := by
  simp +decide [connMembers, findField, findField_append,
    findField_optMember_ne, findField_optMember_self, elim_none_some]

theorem connFind_jwt (ci : ConnectionInformation) :
    findField "jwt" (connMembers ci) = ci.jwt.map Json.str := by
  simp +decide [connMembers, findField, findField_append,
    findField_optMember_ne, findField_optMember_self, elim_none_some]

theorem infoFind_server_id (si : ServerInformation) :
    findField "server_id" (infoMembers si) = some (.str si.server_id) := by
  simp +decide [infoMembers, findField, findField_append,
    findField_optMember_ne]

theorem infoFind_version (si : ServerInformation) :
    findField "version" (infoMembers si) = some (.str si.version) := by
  simp +decide [infoMembers, findField, findField_append,
    findField_optMember_ne]

theorem infoFind_proto (si : ServerInformation) :
    findField "proto" (infoMembers si) = si.proto.map Json.num := by
  simp +decide [infoMembers, findField, findField_append,
    findField_optMember_ne, findField_optMember_self, elim_none_some]

theorem infoFind_go (si : ServerInformation) :
    findField "go" (infoMembers si) = some (.str si.go) := by
  simp +decide [infoMembers, findField, findField_append,
    findField_optMember_ne]

theorem infoFind_host (si : ServerInformation) :
    findField "host" (infoMembers si) = some (.str si.host) := by
  simp +decide [infoMembers, findField, findField_append,
    findField_optMember_ne]

theorem infoFind_port (si : ServerInformation) :
    findField "port" (infoMembers si) = some (.num si.port) := by
  simp +decide [infoMembers, findField, findField_append,
    findField_optMember_ne]

theorem infoFind_auth_required (si : ServerInformation) :
    findField "auth_required" (infoMembers si) = some (.bool si.auth_required) := by
  simp +decide [infoMembers, findField, findField_append,
    findField_optMember_ne]

theorem infoFind_tls_required (si : ServerInformation) :
    findField "tls_required" (infoMembers si) = some (.bool si.tls_required) := by
  simp +decide [infoMembers, findField, findField_append,
    findField_optMember_ne]

theorem infoFind_max_payload (si : ServerInformation) :
    findField "max_payload" (infoMembers si) = some (.num si.max_payload) := by
  simp +decide [infoMembers, findField, findField_append,
    findField_optMember_ne]

theorem infoFind_client_id (si : ServerInformation) :
    findField "client_id" (infoMembers si) = si.client_id.map Json.num := by
  simp +decide [infoMembers, findField, findField_append,
    findField_optMember_ne, findField_optMember_self, elim_none_some]

theorem infoFind_connect_urls (si : ServerInformation) :
    findField "connect_urls" (infoMembers si) = si.connect_urls.map fun us => Json.arr (us.map Json.str) := by
  simp +decide [infoMembers, findField, findField_append,
    findField_optMember_ne, findField_optMember_self, elim_none_some]

theorem infoFind_nonce (si : ServerInformation) :
    findField "nonce" (infoMembers si) = si.nonce.map Json.str := by
  simp +decide [infoMembers, findField, findField_append,
    findField_optMember_ne, findField_optMember_self, elim_none_some]

theorem decodeConnect_encode (ci : ConnectionInformation) :
    decodeConnect (encodeConnect ci) = some ci := by
  have hvb : reqBool (connMembers ci) "verbose" = some ci.verbose :=
    reqBool_of_find _ _ _ (connFind_verbose ci)
  have hpd : reqBool (connMembers ci) "pedantic" = some ci.pedantic :=
    reqBool_of_find _ _ _ (connFind_pedantic ci)
  have htl : reqBool (connMembers ci) "tls_required" = some ci.tls_required :=
    reqBool_of_find _ _ _ (connFind_tls_required ci)
  have hat : optStrField (connMembers ci) "auth_token" = some ci.auth_token :=
    optStrField_of_find _ _ _ (connFind_auth_token ci)
  have hus : optStrField (connMembers ci) "user" = some ci.user :=
    optStrField_of_find _ _ _ (connFind_user ci)
  have hpa : optStrField (connMembers ci) "pass" = some ci.pass :=
    optStrField_of_find _ _ _ (connFind_pass ci)
  have hla : reqStr (connMembers ci) "lang" = some ci.lang :=
    reqStr_of_find _ _ _ (connFind_lang ci)
  have hna : reqStr (connMembers ci) "name" = some ci.name :=
    reqStr_of_find _ _ _ (connFind_name ci)
  have hve : reqStr (connMembers ci) "version" = some ci.version :=
    reqStr_of_find _ _ _ (connFind_version ci)
  have hpr : optNumField (connMembers ci) "protocol" = some ci.protocol :=
    optNumField_of_find _ _ _ (connFind_protocol ci)
  have hsg : optStrField (connMembers ci) "sig" = some ci.sig :=
    optStrField_of_find _ _ _ (connFind_sig ci)
  have hjw : optStrField (connMembers ci) "jwt" = some ci.jwt :=
    optStrField_of_find _ _ _ (connFind_jwt ci)
  have hck1 : countKey "verbose" (connMembers ci) ≤ 1 := by
    simp +decide [connMembers, countKey_append, countKey,
      countKey_optMember_ne]
  have hck2 : countKey "pedantic" (connMembers ci) ≤ 1 := by
    simp +decide [connMembers, countKey_append, countKey,
      countKey_optMember_ne]
  have hck3 : countKey "tls_required" (connMembers ci) ≤ 1 := by
    simp +decide [connMembers, countKey_append, countKey,
      countKey_optMember_ne]
  have hck4 : countKey "auth_token" (connMembers ci) ≤ 1 := by
    cases hx : ci.auth_token <;>
      simp +decide [connMembers, countKey_append, countKey,
        countKey_optMember_self, countKey_optMember_ne, hx]
  have hck5 : countKey "user" (connMembers ci) ≤ 1 := by
    cases hx : ci.user <;>
      simp +decide [connMembers, countKey_append, countKey,
        countKey_optMember_self, countKey_optMember_ne, hx]
  have hck6 : countKey "pass" (connMembers ci) ≤ 1 := by
    cases hx : ci.pass <;>
      simp +decide [connMembers, countKey_append, countKey,
        countKey_optMember_self, countKey_optMember_ne, hx]
  have hck7 : countKey "lang" (connMembers ci) ≤ 1 := by
    simp +decide [connMembers, countKey_append, countKey,
      countKey_optMember_ne]
  have hck8 : countKey "name" (connMembers ci) ≤ 1 := by
    simp +decide [connMembers, countKey_append, countKey,
      countKey_optMember_ne]
  have hck9 : countKey "version" (connMembers ci) ≤ 1 := by
    simp +decide [connMembers, countKey_append, countKey,
      countKey_optMember_ne]
  have hck10 : countKey "protocol" (connMembers ci) ≤ 1 := by
    cases hx : ci.protocol <;>
      simp +decide [connMembers, countKey_append, countKey,
        countKey_optMember_self, countKey_optMember_ne, hx]
  have hck11 : countKey "sig" (connMembers ci) ≤ 1 := by
    cases hx : ci.sig <;>
      simp +decide [connMembers, countKey_append, countKey,
        countKey_optMember_self, countKey_optMember_ne, hx]
  have hck12 : countKey "jwt" (connMembers ci) ≤ 1 := by
    cases hx : ci.jwt <;>
      simp +decide [connMembers, countKey_append, countKey,
        countKey_optMember_self, countKey_optMember_ne, hx]
  have hdup : noDupKeys ["verbose", "pedantic", "tls_required", "auth_token",
      "user", "pass", "lang", "name", "version", "protocol", "sig",
      "jwt"] (connMembers ci) = true := by
    simp only [noDupKeys, List.all_cons, List.all_nil, Bool.and_eq_true,
      decide_eq_true_eq, and_true]
    exact ⟨hck1, hck2, hck3, hck4, hck5, hck6, hck7, hck8, hck9, hck10,
      hck11, hck12⟩
  show decodeConnect (.obj (connMembers ci)) = some ci
  simp only [decodeConnect, hdup]
  rw [hvb, Option.some_bind, hpd, Option.some_bind, htl, Option.some_bind,
    hat, Option.some_bind, hus, Option.some_bind, hpa, Option.some_bind,
    hla, Option.some_bind, hna, Option.some_bind, hve, Option.some_bind,
    hpr, Option.some_bind, hsg, Option.some_bind, hjw, Option.map_some']
  rw [if_pos trivial]

theorem decodeInfo_encode (si : ServerInformation) :
    decodeInfo (encodeInfo si) = some si := by
  have hsi : reqStr (infoMembers si) "server_id" = some si.server_id :=
    reqStr_of_find _ _ _ (infoFind_server_id si)
  have hve : reqStr (infoMembers si) "version" = some si.version :=
    reqStr_of_find _ _ _ (infoFind_version si)
  have hpo : optNumField (infoMembers si) "proto" = some si.proto :=
    optNumField_of_find _ _ _ (infoFind_proto si)
  have hgo : reqStr (infoMembers si) "go" = some si.go :=
    reqStr_of_find _ _ _ (infoFind_go si)
  have hho : reqStr (infoMembers si) "host" = some si.host :=
    reqStr_of_find _ _ _ (infoFind_host si)
  have hpt : reqNum (infoMembers si) "port" = some si.port :=
    reqNum_of_find _ _ _ (infoFind_port si)
  have har : dfltBoolField (infoMembers si) "auth_required" =
      some si.auth_required :=
    dfltBool_of_find _ _ _ (infoFind_auth_required si)
  have htr : dfltBoolField (infoMembers si) "tls_required" =
      some si.tls_required :=
    dfltBool_of_find _ _ _ (infoFind_tls_required si)
  have hmp : dfltNumField (infoMembers si) "max_payload" =
      some si.max_payload :=
    dfltNum_of_find _ _ _ (infoFind_max_payload si)
  have hci : optNumField (infoMembers si) "client_id" = some si.client_id :=
    optNumField_of_find _ _ _ (infoFind_client_id si)
  have hcu : optStrArrField (infoMembers si) "connect_urls" =
      some si.connect_urls :=
    optStrArrField_of_find _ _ _ (infoFind_connect_urls si)
  have hno : optStrField (infoMembers si) "nonce" = some si.nonce :=
    optStrField_of_find _ _ _ (infoFind_nonce si)
  have hck1 : countKey "server_id" (infoMembers si) ≤ 1 := by
    simp +decide [infoMembers, countKey_append, countKey,
      countKey_optMember_ne]
  have hck2 : countKey "version" (infoMembers si) ≤ 1 := by
    simp +decide [infoMembers, countKey_append, countKey,
      countKey_optMember_ne]
  have hck3 : countKey "proto" (infoMembers si) ≤ 1 := by
    cases hx : si.proto <;>
      simp +decide [infoMembers, countKey_append, countKey,
        countKey_optMember_self, countKey_optMember_ne, hx]
  have hck4 : countKey "go" (infoMembers si) ≤ 1 := by
    simp +decide [infoMembers, countKey_append, countKey,
      countKey_optMember_ne]
  have hck5 : countKey "host" (infoMembers si) ≤ 1 := by
    simp +decide [infoMembers, countKey_append, countKey,
      countKey_optMember_ne]
  have hck6 : countKey "port" (infoMembers si) ≤ 1 := by
    simp +decide [infoMembers, countKey_append, countKey,
      countKey_optMember_ne]
  have hck7 : countKey "auth_required" (infoMembers si) ≤ 1 := by
    simp +decide [infoMembers, countKey_append, countKey,
      countKey_optMember_ne]
  have hck8 : countKey "tls_required" (infoMembers si) ≤ 1 := by
    simp +decide [infoMembers, countKey_append, countKey,
      countKey_optMember_ne]
  have hck9 : countKey "max_payload" (infoMembers si) ≤ 1 := by
    simp +decide [infoMembers, countKey_append, countKey,
      countKey_optMember_ne]
  have hck10 : countKey "client_id" (infoMembers si) ≤ 1 := by
    cases hx : si.client_id <;>
      simp +decide [infoMembers, countKey_append, countKey,
        countKey_optMember_self, countKey_optMember_ne, hx]
  have hck11 : countKey "connect_urls" (infoMembers si) ≤ 1 := by
    cases hx : si.connect_urls <;>
      simp +decide [infoMembers, countKey_append, countKey,
        countKey_optMember_self, countKey_optMember_ne, hx]
  have hck12 : countKey "nonce" (infoMembers si) ≤ 1 := by
    cases hx : si.nonce <;>
      simp +decide [infoMembers, countKey_append, countKey,
        countKey_optMember_self, countKey_optMember_ne, hx]
  have hdup : noDupKeys ["server_id", "version", "proto", "go", "host",
      "port", "auth_required", "tls_required", "max_payload", "client_id",
      "connect_urls", "nonce"] (infoMembers si) = true := by
    simp only [noDupKeys, List.all_cons, List.all_nil, Bool.and_eq_true,
      decide_eq_true_eq, and_true]
    exact ⟨hck1, hck2, hck3, hck4, hck5, hck6, hck7, hck8, hck9, hck10,
      hck11, hck12⟩
  show decodeInfo (.obj (infoMembers si)) = some si
  simp only [decodeInfo, hdup]
  rw [hsi, Option.some_bind, hve, Option.some_bind, hpo, Option.some_bind,
    hgo, Option.some_bind, hho, Option.some_bind, hpt, Option.some_bind,
    har, Option.some_bind, htr, Option.some_bind, hmp, Option.some_bind,
    hci, Option.some_bind, hcu, Option.some_bind, hno, Option.map_some']
  rw [if_pos trivial]

/-! ## Dispatcher evaluation lemmas -/

theorem startsWith_eq_true (pre : String) (s : Chars)
    (h : startsWith pre s = true) : ∃ t, s = str pre ++ t := by
  unfold startsWith at h
  rw [List.isPrefixOf_iff_prefix] at h
  obtain ⟨t, ht⟩ := h
  exact ⟨t, ht.symm⟩

theorem fromStr_eq_unsub (s : Chars) (h : startsWith "UNSUB" s = true) :
    ProtocolMessage.fromStr s =
      (UnsubscribeMessage.fromStr s).map .Unsubscribe := by
  unfold ProtocolMessage.fromStr
  rw [if_pos h]

theorem fromStr_eq_pub (t : Chars) :
    ProtocolMessage.fromStr (str "PUB" ++ t) =
      (PublishMessage.fromStr (str "PUB" ++ t)).map .Publish := by
  unfold ProtocolMessage.fromStr
  rw [if_neg (by simp [startsWith, str, List.isPrefixOf]),
    if_pos (by simp [startsWith, str, List.isPrefixOf])]

theorem fromStr_eq_msg (t : Chars) :
    ProtocolMessage.fromStr (str "MSG" ++ t) =
      (DeliveredMessage.fromStr (str "MSG" ++ t)).map .Message := by
  unfold ProtocolMessage.fromStr
  rw [if_neg (by simp [startsWith, str, List.isPrefixOf]),
    if_neg (by simp [startsWith, str, List.isPrefixOf]),
    if_pos (by simp [startsWith, str, List.isPrefixOf])]

theorem fromStr_eq_sub (t : Chars) :
    ProtocolMessage.fromStr (str "SUB" ++ t) =
      (SubscribeMessage.fromStr (str "SUB" ++ t)).map .Subscribe := by
  unfold ProtocolMessage.fromStr
  rw [if_neg (by simp [startsWith, str, List.isPrefixOf]),
    if_neg (by simp [startsWith, str, List.isPrefixOf]),
    if_neg (by simp [startsWith, str, List.isPrefixOf]),
    if_pos (by simp [startsWith, str, List.isPrefixOf])]

theorem fromStr_eq_ping (t : Chars) :
    ProtocolMessage.fromStr (str "PING" ++ t) = some .Ping := by
  unfold ProtocolMessage.fromStr
  rw [if_neg (by simp [startsWith, str, List.isPrefixOf]),
    if_neg (by simp [startsWith, str, List.isPrefixOf]),
    if_neg (by simp [startsWith, str, List.isPrefixOf]),
    if_neg (by simp [startsWith, str, List.isPrefixOf]),
    if_pos (by simp [startsWith, str, List.isPrefixOf])]

theorem fromStr_eq_pong (t : Chars) :
    ProtocolMessage.fromStr (str "PONG" ++ t) = some .Pong := by
  unfold ProtocolMessage.fromStr
  rw [if_neg (by simp [startsWith, str, List.isPrefixOf]),
    if_neg (by simp [startsWith, str, List.isPrefixOf]),
    if_neg (by simp [startsWith, str, List.isPrefixOf]),
    if_neg (by simp [startsWith, str, List.isPrefixOf]),
    if_neg (by simp [startsWith, str, List.isPrefixOf]),
    if_pos (by simp [startsWith, str, List.isPrefixOf])]

theorem fromStr_eq_ok (t : Chars) :
    ProtocolMessage.fromStr (str "+OK" ++ t) = some .Ok := by
  unfold ProtocolMessage.fromStr
  rw [if_neg (by simp [startsWith, str, List.isPrefixOf]),
    if_neg (by simp [startsWith, str, List.isPrefixOf]),
    if_neg (by simp [startsWith, str, List.isPrefixOf]),
    if_neg (by simp [startsWith, str, List.isPrefixOf]),
    if_neg (by simp [startsWith, str, List.isPrefixOf]),
    if_neg (by simp [startsWith, str, List.isPrefixOf]),
    if_pos (by simp [startsWith, str, List.isPrefixOf])]

theorem fromStr_eq_err (t : Chars) :
    ProtocolMessage.fromStr (str "-ERR" ++ t) =
      (parse_err_header (str "-ERR" ++ t)).map fun h => .Error h.message := by
  unfold ProtocolMessage.fromStr
  rw [if_neg (by simp [startsWith, str, List.isPrefixOf]),
    if_neg (by simp [startsWith, str, List.isPrefixOf]),
    if_neg (by simp [startsWith, str, List.isPrefixOf]),
    if_neg (by simp [startsWith, str, List.isPrefixOf]),
    if_neg (by simp [startsWith, str, List.isPrefixOf]),
    if_neg (by simp [startsWith, str, List.isPrefixOf]),
    if_neg (by simp [startsWith, str, List.isPrefixOf]),
    if_pos (by simp [startsWith, str, List.isPrefixOf])]

theorem fromStr_eq_info (t : Chars) :
    ProtocolMessage.fromStr (str "INFO" ++ t) =
      (ServerInformation.fromStr (str "INFO" ++ t)).map .Info := by
  unfold ProtocolMessage.fromStr
  rw [if_neg (by simp [startsWith, str, List.isPrefixOf]),
    if_neg (by simp [startsWith, str, List.isPrefixOf]),
    if_neg (by simp [startsWith, str, List.isPrefixOf]),
    if_neg (by simp [startsWith, str, List.isPrefixOf]),
    if_neg (by simp [startsWith, str, List.isPrefixOf]),
    if_neg (by simp [startsWith, str, List.isPrefixOf]),
    if_neg (by simp [startsWith, str, List.isPrefixOf]),
    if_neg (by simp [startsWith, str, List.isPrefixOf]),
    if_pos (by simp [startsWith, str, List.isPrefixOf])]

theorem fromStr_eq_connect (t : Chars) :
    ProtocolMessage.fromStr (str "CONNECT" ++ t) =
      (ConnectionInformation.fromStr (str "CONNECT" ++ t)).map .Connect := by
  unfold ProtocolMessage.fromStr
  rw [if_neg (by simp [startsWith, str, List.isPrefixOf]),
    if_neg (by simp [startsWith, str, List.isPrefixOf]),
    if_neg (by simp [startsWith, str, List.isPrefixOf]),
    if_neg (by simp [startsWith, str, List.isPrefixOf]),
    if_neg (by simp [startsWith, str, List.isPrefixOf]),
    if_neg (by simp [startsWith, str, List.isPrefixOf]),
    if_neg (by simp [startsWith, str, List.isPrefixOf]),
    if_neg (by simp [startsWith, str, List.isPrefixOf]),
    if_neg (by simp [startsWith, str, List.isPrefixOf]),
    if_pos (by simp [startsWith, str, List.isPrefixOf])]

theorem fromStr_eq_none (s : Chars)
    (h1 : startsWith "UNSUB" s = false) (h2 : startsWith "PUB" s = false)
    (h3 : startsWith "MSG" s = false) (h4 : startsWith "SUB" s = false)
    (h5 : startsWith "PING" s = false) (h6 : startsWith "PONG" s = false)
    (h7 : startsWith "+OK" s = false) (h8 : startsWith "-ERR" s = false)
    (h9 : startsWith "INFO" s = false)
    (h10 : startsWith "CONNECT" s = false) :
    ProtocolMessage.fromStr s = none := by
  unfold ProtocolMessage.fromStr
  rw [if_neg (by simp [h1]), if_neg (by simp [h2]), if_neg (by simp [h3]),
    if_neg (by simp [h4]), if_neg (by simp [h5]), if_neg (by simp [h6]),
    if_neg (by simp [h7]), if_neg (by simp [h8]), if_neg (by simp [h9]),
    if_neg (by simp [h10])]

/-! ## Inversion lemmas: tokens produced by a successful parse -/

theorem parse_completestr_inv (s tok r : Chars)
    (h : parse_completestr s = some (tok, r)) :
    ∀ c ∈ tok, is_not_space c = true :=
  (pTakeWhile1_inv is_not_space s tok r h).2.1

theorem optTokenSep_fst_inv (s : Chars) (q : Chars)
    (h : (optTokenSep s).1 = some q) : ∀ c ∈ q, is_not_space c = true := by
  unfold optTokenSep at h
  cases hcs : parse_completestr s with
  | none => rw [hcs] at h; simp at h
  | some p =>
    rw [hcs] at h
    simp only [Option.elim_some] at h
    cases hisa : pIsA p.2 with
    | none => rw [hisa] at h; simp at h
    | some p2 =>
      rw [hisa] at h
      simp only [Option.elim_some] at h
      have hq : p.1 = q := by simpa using h
      subst hq
      exact parse_completestr_inv s p.1 p.2 (by rw [hcs])

theorem sub_header_tokens (s : Chars) (hdr : SubHeader) (r : Chars)
    (h : sub_header s = some (hdr, r)) :
    (∀ c ∈ hdr.subject, is_not_space c = true) ∧
    (∀ q, hdr.queue_group = some q → ∀ c ∈ q, is_not_space c = true) := by
  unfold sub_header at h
  simp only [Option.bind_eq_some, Option.map_eq_some'] at h
  obtain ⟨s1, hs1, p1, hp1, p2, hp2, p3, hp3, p5, hp5, heq⟩ := h
  injection heq with e1 e2
  subst e1
  constructor
  · exact parse_completestr_inv p1.2 p2.1 p2.2 (by rw [hp2])
  · intro q hq
    exact optTokenSep_fst_inv p3.2 q hq

theorem pub_header_tokens (s : Chars) (hdr : PubHeader) (r : Chars)
    (h : pub_header s = some (hdr, r)) :
    (∀ c ∈ hdr.subject, is_not_space c = true) ∧
    (∀ rt, hdr.reply_to = some rt → ∀ c ∈ rt, is_not_space c = true) := by
  unfold pub_header at h
  simp only [Option.bind_eq_some, Option.map_eq_some'] at h
  obtain ⟨s1, hs1, p1, hp1, p2, hp2, p3, hp3, p5, hp5, heq⟩ := h
  injection heq with e1 e2
  subst e1
  constructor
  · exact parse_completestr_inv p1.2 p2.1 p2.2 (by rw [hp2])
  · intro rt h2
    exact optTokenSep_fst_inv p3.2 rt h2

theorem msg_header_tokens (s : Chars) (hdr : MessageHeader) (r : Chars)
    (h : msg_header s = some (hdr, r)) :
    (∀ c ∈ hdr.subject, is_not_space c = true) ∧
    (∀ rt, hdr.reply_to = some rt → ∀ c ∈ rt, is_not_space c = true) := by
  unfold msg_header at h
  simp only [Option.bind_eq_some, Option.map_eq_some'] at h
  obtain ⟨s1, hs1, p1, hp1, p2, hp2, p3, hp3, p4, hp4, p5, hp5, p7, hp7,
    heq⟩ := h
  injection heq with e1 e2
  subst e1
  constructor
  · exact parse_completestr_inv p1.2 p2.1 p2.2 (by rw [hp2])
  · intro rt h2
    exact optTokenSep_fst_inv p5.2 rt h2

/-! ## No line feed in rendered headers -/

theorem noLF_append (a b : Chars) (ha : ∀ c ∈ a, c ≠ '\n')
    (hb : ∀ c ∈ b, c ≠ '\n') : ∀ c ∈ a ++ b, c ≠ '\n' := by
  intro c hc
  rcases List.mem_append.mp hc with h | h
  · exact ha c h
  · exact hb c h

theorem noLF_goodToken (t : Chars) (ht : goodToken t) : ∀ c ∈ t, c ≠ '\n' := by
  intro c hc h
  have := ht.2.1 c hc
  subst h
  simp [is_not_space] at this

theorem noLF_natChars (n : Nat) : ∀ c ∈ natChars n, c ≠ '\n' := by
  intro c hc h
  have := natChars_all_digit n c hc
  subst h
  simp [is_digit] at this

/-! ## Specification-side descriptions of the canonical wire form -/

/-- Modelled from the spec: the header fields of each message kind, in
wire order (the `Error` kind is excluded; its wire form is quoted, not
field-joined). -/
def headerFields : ProtocolMessage → List Chars
  | .Unsubscribe m => [str "UNSUB", natChars m.subscription_id] ++
      (m.max_messages.elim [] fun n => [natChars n])
  | .Subscribe m => [str "SUB", m.subject] ++
      (m.queue_group.elim [] fun q => [q]) ++ [natChars m.subscription_id]
  | .Publish m => [str "PUB", m.subject] ++
      (m.reply_to.elim [] fun r => [r]) ++ [natChars m.payload_size]
  | .Message m => [str "MSG", m.subject, natChars m.subscription_id] ++
      (m.reply_to.elim [] fun r => [r]) ++ [natChars m.payload_size]
  | .Ping => [str "PING"]
  | .Pong => [str "PONG"]
  | .Ok => [str "+OK"]
  | .Error _ => []
  | .Info si => [str "INFO", jsonChars (encodeInfo si)]
  | .Connect ci => [str "CONNECT", jsonChars (encodeConnect ci)]

/-- The payload line of the two-line kinds (empty for all others). -/
def payloadTrailer : ProtocolMessage → Chars
  | .Publish m => vec_to_str m.payload ++ crlf
  | .Message m => vec_to_str m.payload ++ crlf
  | _ => []

/-- Well-formedness of a message for the round-trip property: tokens are
non-empty, free of space/CR/LF and do not start with a tab; numbers fit
in `u64`; a payload is the UTF-8 encoding of text containing no CRLF;
error text is non-empty and tick-free. The JSON kinds are handled
separately at the structured-object boundary. -/
def GoodPM : ProtocolMessage → Prop
  | .Unsubscribe m => m.subscription_id < 2 ^ 64 ∧
      (∀ n, m.max_messages = some n → n < 2 ^ 64)
  | .Subscribe m => goodToken m.subject ∧
      (∀ q, m.queue_group = some q → goodToken q) ∧
      m.subscription_id < 2 ^ 64
  | .Publish m => goodToken m.subject ∧
      (∀ r, m.reply_to = some r → goodToken r) ∧ m.payload_size < 2 ^ 64 ∧
      (∃ cs, m.payload = utf8Encode cs ∧ hasCRLF cs = false)
  | .Message m => goodToken m.subject ∧ m.subscription_id < 2 ^ 64 ∧
      (∀ r, m.reply_to = some r → goodToken r) ∧ m.payload_size < 2 ^ 64 ∧
      (∃ cs, m.payload = utf8Encode cs ∧ hasCRLF cs = false)
  | .Ping => True
  | .Pong => True
  | .Ok => True
  | .Error s => s ≠ [] ∧ ∀ c ∈ s, c ≠ '\''
  | .Info _ => False
  | .Connect _ => False

/-! ## Claim C5 -/

/-- Claim C5 (confirmed). For the payload-bearing kinds (PUB, MSG):
raw input with fewer than two CRLF-delimited segments (that is, input in
which `"\r\n"` does not occur) makes the split — and the PUB/MSG parses —
fail, and otherwise the split returns the first segment (the header line
without its terminator) and the bytes of the second segment (the payload
without its terminator). -/
theorem C5_framing :
    (∀ s : Chars, hasCRLF s = false →
      split_header_and_payload s = none ∧
      PublishMessage.fromStr s = none ∧
      DeliveredMessage.fromStr s = none) ∧
    (∀ hdr p rest : Chars, hasCRLF hdr = false → hasCRLF p = false →
      split_header_and_payload (hdr ++ crlf ++ (p ++ crlf ++ rest)) =
        some (hdr, utf8Encode p)) := by
  constructor
  · intro s h
    have h1 := split_hp_none s h
    refine ⟨h1, ?_, ?_⟩
    · unfold PublishMessage.fromStr
      rw [h1, Option.none_bind]
    · unfold DeliveredMessage.fromStr
      rw [h1, Option.none_bind]
  · intro hdr p rest h1 h2
    exact split_hp_some hdr p rest h1 h2

/-- Witness for C5 at concrete inputs. -/
theorem C5_framing_witness :
    split_header_and_payload (str "PUB FOO 3") = none ∧
    split_header_and_payload (str "AB" ++ crlf ++ (str "CD" ++ crlf ++ [])) =
      some (str "AB", utf8Encode (str "CD")) :=
  ⟨(C5_framing.1 (str "PUB FOO 3") (by decide)).1,
   C5_framing.2 (str "AB") (str "CD") [] (by decide) (by decide)⟩

/-! ## Claim C4 -/

/-- Claim C4 (confirmed). An input whose leading bytes match none of the
ten keywords is rejected, and an input starting with a keyword is routed
to that keyword's own grammar — in particular an input starting with
`UNSUB` is parsed by the UNSUB grammar, never the SUB one. -/
theorem C4_dispatch :
    (∀ s : Chars,
      startsWith "UNSUB" s = false → startsWith "PUB" s = false →
      startsWith "MSG" s = false → startsWith "SUB" s = false →
      startsWith "PING" s = false → startsWith "PONG" s = false →
      startsWith "+OK" s = false → startsWith "-ERR" s = false →
      startsWith "INFO" s = false → startsWith "CONNECT" s = false →
      ProtocolMessage.fromStr s = none) ∧
    (∀ s : Chars,
      (startsWith "UNSUB" s = true → ProtocolMessage.fromStr s =
        (UnsubscribeMessage.fromStr s).map .Unsubscribe) ∧
      (startsWith "PUB" s = true → ProtocolMessage.fromStr s =
        (PublishMessage.fromStr s).map .Publish) ∧
      (startsWith "MSG" s = true → ProtocolMessage.fromStr s =
        (DeliveredMessage.fromStr s).map .Message) ∧
      (startsWith "SUB" s = true → ProtocolMessage.fromStr s =
        (SubscribeMessage.fromStr s).map .Subscribe) ∧
      (startsWith "PING" s = true → ProtocolMessage.fromStr s = some .Ping) ∧
      (startsWith "PONG" s = true → ProtocolMessage.fromStr s = some .Pong) ∧
      (startsWith "+OK" s = true → ProtocolMessage.fromStr s = some .Ok) ∧
      (startsWith "-ERR" s = true → ProtocolMessage.fromStr s =
        (parse_err_header s).map fun h => .Error h.message) ∧
      (startsWith "INFO" s = true → ProtocolMessage.fromStr s =
        (ServerInformation.fromStr s).map .Info) ∧
      (startsWith "CONNECT" s = true → ProtocolMessage.fromStr s =
        (ConnectionInformation.fromStr s).map .Connect)) := by
  constructor
  · intro s h1 h2 h3 h4 h5 h6 h7 h8 h9 h10
    exact fromStr_eq_none s h1 h2 h3 h4 h5 h6 h7 h8 h9 h10
  · intro s
    refine ⟨fun h => fromStr_eq_unsub s h, ?_, ?_, ?_, ?_, ?_, ?_, ?_, ?_, ?_⟩
    all_goals intro h
    all_goals obtain ⟨t, rfl⟩ := startsWith_eq_true _ _ h
    · exact fromStr_eq_pub t
    · exact fromStr_eq_msg t
    · exact fromStr_eq_sub t
    · exact fromStr_eq_ping t
    · exact fromStr_eq_pong t
    · exact fromStr_eq_ok t
    · exact fromStr_eq_err t
    · exact fromStr_eq_info t
    · exact fromStr_eq_connect t

/-- Witness for C4 at concrete inputs. -/
theorem C4_dispatch_witness :
    ProtocolMessage.fromStr (str "HELLO WORLD") = none ∧
    ProtocolMessage.fromStr (str "UNSUB 21 40") =
      (UnsubscribeMessage.fromStr (str "UNSUB 21 40")).map .Unsubscribe :=
  ⟨C4_dispatch.1 (str "HELLO WORLD") (by decide) (by decide) (by decide)
      (by decide) (by decide) (by decide) (by decide) (by decide) (by decide)
      (by decide),
   (C4_dispatch.2 (str "UNSUB 21 40")).1 (by decide)⟩

/-! ## Claim C6 -/

/-- Counterexample to claim C6 as stated: in `UNSUB 5 x` a token follows
the subscription id, yet the parse neither records a max-messages value
nor fails — it succeeds with max-messages absent. -/
theorem C6_counterexample :
    parse_unsub_header (str "UNSUB 5 x") =
      some { sid := 5, max_messages := none } := by decide

/-- Claim C6 as amended: max-messages is present iff the id is followed
by a separator run and a token whose first character is a digit (with
value below `2^64`); a non-digit token in the id position fails the
parse, but a non-digit token in the max-messages position is ignored and
the parse succeeds with max-messages absent. -/
theorem C6_unsub_amended :
    (∀ (ws1 : Chars) (sid : Nat) (rest : Chars), wsRun ws1 → sid < 2 ^ 64 →
      tailOk rest →
      parse_unsub_header (str "UNSUB" ++ (ws1 ++ (natChars sid ++ rest))) =
        some { sid := sid, max_messages := none }) ∧
    (∀ (ws1 ws2 : Chars) (sid m : Nat) (rest : Chars), wsRun ws1 → wsRun ws2 →
      sid < 2 ^ 64 → m < 2 ^ 64 → tailOk rest →
      parse_unsub_header (str "UNSUB" ++ (ws1 ++ (natChars sid ++
        (ws2 ++ (natChars m ++ rest))))) =
        some { sid := sid, max_messages := some m }) ∧
    (∀ (ws1 ws2 : Chars) (sid : Nat) (c : Char) (rest2 : Chars), wsRun ws1 →
      wsRun ws2 → sid < 2 ^ 64 → is_digit c = false → isWsChar c = false →
      parse_unsub_header (str "UNSUB" ++ (ws1 ++ (natChars sid ++
        (ws2 ++ (c :: rest2))))) =
        some { sid := sid, max_messages := none }) ∧
    (∀ (ws1 : Chars) (c : Char) (rest2 : Chars), wsRun ws1 →
      is_digit c = false → isWsChar c = false →
      parse_unsub_header (str "UNSUB" ++ (ws1 ++ (c :: rest2))) = none) := by
  refine ⟨?_, ?_, ?_, ?_⟩
  · intro ws1 sid rest h1 h2 h3
    unfold parse_unsub_header
    rw [unsub_header_spec_none ws1 sid rest h1 h2 h3, Option.map_some']
  · intro ws1 ws2 sid m rest h1 h2 h3 h4 h5
    unfold parse_unsub_header
    rw [unsub_header_spec_some ws1 ws2 sid m rest h1 h2 h3 h4 h5,
      Option.map_some']
  · intro ws1 ws2 sid c rest2 h1 h2 h3 h4 h5
    unfold parse_unsub_header
    rw [unsub_header_spec_garbage ws1 ws2 sid c rest2 h1 h2 h3 h4 h5,
      Option.map_some']
  · intro ws1 c rest2 h1 h2 h3
    unfold parse_unsub_header
    rw [unsub_header_spec_fail ws1 c rest2 h1 h2 h3, Option.map_none']

/-- Witness for the amended C6 at concrete inputs. -/
theorem C6_unsub_amended_witness :
    parse_unsub_header (str "UNSUB" ++ ([' '] ++ (natChars 21 ++
      ([' '] ++ (natChars 40 ++ []))))) =
      some { sid := 21, max_messages := some 40 } ∧
    parse_unsub_header (str "UNSUB" ++ ([' '] ++ ('x' :: str "yz"))) =
      none :=
  ⟨C6_unsub_amended.2.1 [' '] [' '] 21 40 [] (by decide) (by decide)
      (by decide) (by decide) (by decide),
   C6_unsub_amended.2.2.2 [' '] 'x' (str "yz") (by decide) (by decide)
      (by decide)⟩

/-! ## Claim C7 -/

/-- Counterexample to claim C7 as stated: a parsed subject can contain a
horizontal tab, because `is_not_space` does not treat tab as a
separator character. -/
theorem C7_counterexample :
    parse_sub_header (str "SUB FOO\t \t1") =
      some { subject := str "FOO\t", queue_group := none, sid := 1 } ∧
    '\t' ∈ str "FOO\t" := by
  constructor
  · decide
  · decide

/-- Claim C7 as amended: every token produced by parsing (a subject,
queue-group, or reply-to value) contains no space, no CR and no LF — the
characters `is_not_space` rejects — though it may contain a tab. -/
theorem C7_tokens_amended :
    (∀ (s : Chars) (hdr : SubHeader) (r : Chars),
      sub_header s = some (hdr, r) →
      (∀ c ∈ hdr.subject, c ≠ ' ' ∧ c ≠ '\r' ∧ c ≠ '\n') ∧
      (∀ q, hdr.queue_group = some q →
        ∀ c ∈ q, c ≠ ' ' ∧ c ≠ '\r' ∧ c ≠ '\n')) ∧
    (∀ (s : Chars) (hdr : PubHeader) (r : Chars),
      pub_header s = some (hdr, r) →
      (∀ c ∈ hdr.subject, c ≠ ' ' ∧ c ≠ '\r' ∧ c ≠ '\n') ∧
      (∀ rt, hdr.reply_to = some rt →
        ∀ c ∈ rt, c ≠ ' ' ∧ c ≠ '\r' ∧ c ≠ '\n')) ∧
    (∀ (s : Chars) (hdr : MessageHeader) (r : Chars),
      msg_header s = some (hdr, r) →
      (∀ c ∈ hdr.subject, c ≠ ' ' ∧ c ≠ '\r' ∧ c ≠ '\n') ∧
      (∀ rt, hdr.reply_to = some rt →
        ∀ c ∈ rt, c ≠ ' ' ∧ c ≠ '\r' ∧ c ≠ '\n')) := by
  have conv : ∀ c : Char, is_not_space c = true →
      c ≠ ' ' ∧ c ≠ '\r' ∧ c ≠ '\n' := by
    intro c hc
    unfold is_not_space at hc
    simp only [Bool.and_eq_true, bne_iff_ne] at hc
    exact ⟨hc.1.1, hc.1.2, hc.2⟩
  refine ⟨?_, ?_, ?_⟩
  · intro s hdr r h
    obtain ⟨ha, hb⟩ := sub_header_tokens s hdr r h
    exact ⟨fun c hc => conv c (ha c hc),
      fun q hq c hc => conv c (hb q hq c hc)⟩
  · intro s hdr r h
    obtain ⟨ha, hb⟩ := pub_header_tokens s hdr r h
    exact ⟨fun c hc => conv c (ha c hc),
      fun rt hrt c hc => conv c (hb rt hrt c hc)⟩
  · intro s hdr r h
    obtain ⟨ha, hb⟩ := msg_header_tokens s hdr r h
    exact ⟨fun c hc => conv c (ha c hc),
      fun rt hrt c hc => conv c (hb rt hrt c hc)⟩

/-- Witness for the amended C7 at a concrete parse. -/
theorem C7_tokens_amended_witness :
    sub_header (str "SUB FOO G1 44") =
      some ({ subject := str "FOO", queue_group := some (str "G1"),
              sid := 44 }, []) ∧
    (∀ c ∈ (str "FOO" : Chars), c ≠ ' ' ∧ c ≠ '\r' ∧ c ≠ '\n') :=
  ⟨by decide,
   (C7_tokens_amended.1 (str "SUB FOO G1 44")
      { subject := str "FOO", queue_group := some (str "G1"), sid := 44 }
      [] (by decide)).1⟩

/-! ## Claim C2 -/

/-- Counterexample to claim C2 as stated: replacing the single space
after the subject with a tab-only run is not accepted — `SUB FOO\t1`
fails to parse while `SUB FOO 1` succeeds, because a leading tab is
absorbed into the preceding token rather than treated as a separator. -/
theorem C2_counterexample :
    parse_sub_header (str "SUB FOO\t1") = none ∧
    parse_sub_header (str "SUB FOO 1") =
      some { subject := str "FOO", queue_group := none, sid := 1 } := by
  constructor
  · decide
  · decide

/-- Claim C2 as amended: separator runs of one-or-more spaces/tabs in any
combination parse identically to the single-space form, provided every
run that immediately follows a subject, queue-group or reply-to token
begins with a space (tabs at the start of such a run attach to the token
instead, since `is_not_space` admits the tab character). -/
theorem C2_whitespace_amended :
    (∀ (ws1 ws2 : Chars) (subj : Chars) (sid : Nat) (rest : Chars),
      wsRun ws1 → goodToken subj → wsRunSp ws2 → sid < 2 ^ 64 → tailOk rest →
      parse_sub_header (str "SUB" ++ (ws1 ++ (subj ++ (ws2 ++
        (natChars sid ++ rest))))) =
      parse_sub_header (str "SUB" ++ ([' '] ++ (subj ++ ([' '] ++
        (natChars sid ++ rest))))) ∧
      parse_sub_header (str "SUB" ++ (ws1 ++ (subj ++ (ws2 ++
        (natChars sid ++ rest))))) =
        some { subject := subj, queue_group := none, sid := sid }) ∧
    (∀ (ws1 ws2 ws3 : Chars) (subj q : Chars) (sid : Nat) (rest : Chars),
      wsRun ws1 → goodToken subj → wsRunSp ws2 → goodToken q → wsRunSp ws3 →
      sid < 2 ^ 64 → tailOk rest →
      parse_sub_header (str "SUB" ++ (ws1 ++ (subj ++ (ws2 ++ (q ++ (ws3 ++
        (natChars sid ++ rest))))))) =
      parse_sub_header (str "SUB" ++ ([' '] ++ (subj ++ ([' '] ++ (q ++
        ([' '] ++ (natChars sid ++ rest))))))) ∧
      parse_sub_header (str "SUB" ++ (ws1 ++ (subj ++ (ws2 ++ (q ++ (ws3 ++
        (natChars sid ++ rest))))))) =
        some { subject := subj, queue_group := some q, sid := sid }) ∧
    (∀ (ws1 ws2 : Chars) (subj : Chars) (len : Nat) (rest : Chars),
      wsRun ws1 → goodToken subj → wsRunSp ws2 → len < 2 ^ 64 → tailOk rest →
      parse_pub_header (str "PUB" ++ (ws1 ++ (subj ++ (ws2 ++
        (natChars len ++ rest))))) =
      parse_pub_header (str "PUB" ++ ([' '] ++ (subj ++ ([' '] ++
        (natChars len ++ rest))))) ∧
      parse_pub_header (str "PUB" ++ (ws1 ++ (subj ++ (ws2 ++
        (natChars len ++ rest))))) =
        some { subject := subj, reply_to := none, message_len := len }) ∧
    (∀ (ws1 ws2 ws3 : Chars) (subj rt : Chars) (len : Nat) (rest : Chars),
      wsRun ws1 → goodToken subj → wsRunSp ws2 → goodToken rt → wsRunSp ws3 →
      len < 2 ^ 64 → tailOk rest →
      parse_pub_header (str "PUB" ++ (ws1 ++ (subj ++ (ws2 ++ (rt ++ (ws3 ++
        (natChars len ++ rest))))))) =
      parse_pub_header (str "PUB" ++ ([' '] ++ (subj ++ ([' '] ++ (rt ++
        ([' '] ++ (natChars len ++ rest))))))) ∧
      parse_pub_header (str "PUB" ++ (ws1 ++ (subj ++ (ws2 ++ (rt ++ (ws3 ++
        (natChars len ++ rest))))))) =
        some { subject := subj, reply_to := some rt, message_len := len }) ∧
    (∀ (ws1 ws2 ws3 ws4 : Chars) (subj rt : Chars) (sid len : Nat)
      (rest : Chars),
      wsRun ws1 → goodToken subj → wsRunSp ws2 → wsRun ws3 → goodToken rt →
      wsRunSp ws4 → sid < 2 ^ 64 → len < 2 ^ 64 → tailOk rest →
      parse_msg_header (str "MSG" ++ (ws1 ++ (subj ++ (ws2 ++
        (natChars sid ++ (ws3 ++ (rt ++ (ws4 ++
        (natChars len ++ rest))))))))) =
      parse_msg_header (str "MSG" ++ ([' '] ++ (subj ++ ([' '] ++
        (natChars sid ++ ([' '] ++ (rt ++ ([' '] ++
        (natChars len ++ rest))))))))) ∧
      parse_msg_header (str "MSG" ++ (ws1 ++ (subj ++ (ws2 ++
        (natChars sid ++ (ws3 ++ (rt ++ (ws4 ++
        (natChars len ++ rest))))))))) =
        some { subject := subj, sid := sid, reply_to := some rt,
               message_len := len }) ∧
    (∀ (ws1 ws2 : Chars) (sid m : Nat) (rest : Chars),
      wsRun ws1 → wsRun ws2 → sid < 2 ^ 64 → m < 2 ^ 64 → tailOk rest →
      parse_unsub_header (str "UNSUB" ++ (ws1 ++ (natChars sid ++ (ws2 ++
        (natChars m ++ rest))))) =
      parse_unsub_header (str "UNSUB" ++ ([' '] ++ (natChars sid ++ ([' '] ++
        (natChars m ++ rest))))) ∧
      parse_unsub_header (str "UNSUB" ++ (ws1 ++ (natChars sid ++ (ws2 ++
        (natChars m ++ rest))))) =
        some { sid := sid, max_messages := some m }) := by
  have hsp : wsRunSp [' '] := by decide
  have hr : wsRun [' '] := by decide
  refine ⟨?_, ?_, ?_, ?_, ?_, ?_⟩
  · intro ws1 ws2 subj sid rest h1 h2 h3 h4 h5
    have e1 : parse_sub_header (str "SUB" ++ (ws1 ++ (subj ++ (ws2 ++
        (natChars sid ++ rest))))) =
        some { subject := subj, queue_group := none, sid := sid } := by
      unfold parse_sub_header
      rw [sub_header_spec_none ws1 ws2 subj sid rest h1 h2 h3 h4 h5,
        Option.map_some']
    have e2 : parse_sub_header (str "SUB" ++ ([' '] ++ (subj ++ ([' '] ++
        (natChars sid ++ rest))))) =
        some { subject := subj, queue_group := none, sid := sid } := by
      unfold parse_sub_header
      rw [sub_header_spec_none [' '] [' '] subj sid rest hr h2 hsp h4 h5,
        Option.map_some']
    exact ⟨e1.trans e2.symm, e1⟩
  · intro ws1 ws2 ws3 subj q sid rest h1 h2 h3 hq h4 h5 h6
    have e1 : parse_sub_header (str "SUB" ++ (ws1 ++ (subj ++ (ws2 ++ (q ++
        (ws3 ++ (natChars sid ++ rest))))))) =
        some { subject := subj, queue_group := some q, sid := sid } := by
      unfold parse_sub_header
      rw [sub_header_spec_some ws1 ws2 ws3 subj q sid rest h1 h2 h3 hq h4 h5
        h6, Option.map_some']
    have e2 : parse_sub_header (str "SUB" ++ ([' '] ++ (subj ++ ([' '] ++
        (q ++ ([' '] ++ (natChars sid ++ rest))))))) =
        some { subject := subj, queue_group := some q, sid := sid } := by
      unfold parse_sub_header
      rw [sub_header_spec_some [' '] [' '] [' '] subj q sid rest hr h2 hsp hq
        hsp h5 h6, Option.map_some']
    exact ⟨e1.trans e2.symm, e1⟩
  · intro ws1 ws2 subj len rest h1 h2 h3 h4 h5
    have e1 : parse_pub_header (str "PUB" ++ (ws1 ++ (subj ++ (ws2 ++
        (natChars len ++ rest))))) =
        some { subject := subj, reply_to := none, message_len := len } := by
      unfold parse_pub_header
      rw [pub_header_spec_none ws1 ws2 subj len rest h1 h2 h3 h4 h5,
        Option.map_some']
    have e2 : parse_pub_header (str "PUB" ++ ([' '] ++ (subj ++ ([' '] ++
        (natChars len ++ rest))))) =
        some { subject := subj, reply_to := none, message_len := len } := by
      unfold parse_pub_header
      rw [pub_header_spec_none [' '] [' '] subj len rest hr h2 hsp h4 h5,
        Option.map_some']
    exact ⟨e1.trans e2.symm, e1⟩
  · intro ws1 ws2 ws3 subj rt len rest h1 h2 h3 hq h4 h5 h6
    have e1 : parse_pub_header (str "PUB" ++ (ws1 ++ (subj ++ (ws2 ++ (rt ++
        (ws3 ++ (natChars len ++ rest))))))) =
        some { subject := subj, reply_to := some rt,
               message_len := len } := by
      unfold parse_pub_header
      rw [pub_header_spec_some ws1 ws2 ws3 subj rt len rest h1 h2 h3 hq h4 h5
        h6, Option.map_some']
    have e2 : parse_pub_header (str "PUB" ++ ([' '] ++ (subj ++ ([' '] ++
        (rt ++ ([' '] ++ (natChars len ++ rest))))))) =
        some { subject := subj, reply_to := some rt,
               message_len := len } := by
      unfold parse_pub_header
      rw [pub_header_spec_some [' '] [' '] [' '] subj rt len rest hr h2 hsp hq
        hsp h5 h6, Option.map_some']
    exact ⟨e1.trans e2.symm, e1⟩
  · intro ws1 ws2 ws3 ws4 subj rt sid len rest h1 h2 h3 h4 hq h5 h6 h7 h8
    have e1 : parse_msg_header (str "MSG" ++ (ws1 ++ (subj ++ (ws2 ++
        (natChars sid ++ (ws3 ++ (rt ++ (ws4 ++
        (natChars len ++ rest))))))))) =
        some { subject := subj, sid := sid, reply_to := some rt,
               message_len := len } := by
      unfold parse_msg_header
      rw [msg_header_spec_some ws1 ws2 ws3 ws4 subj rt sid len rest h1 h2 h3
        h4 hq h5 h6 h7 h8, Option.map_some']
    have e2 : parse_msg_header (str "MSG" ++ ([' '] ++ (subj ++ ([' '] ++
        (natChars sid ++ ([' '] ++ (rt ++ ([' '] ++
        (natChars len ++ rest))))))))) =
        some { subject := subj, sid := sid, reply_to := some rt,
               message_len := len } := by
      unfold parse_msg_header
      rw [msg_header_spec_some [' '] [' '] [' '] [' '] subj rt sid len rest hr
        h2 hsp hr hq hsp h6 h7 h8, Option.map_some']
    exact ⟨e1.trans e2.symm, e1⟩
  · intro ws1 ws2 sid m rest h1 h2 h3 h4 h5
    have e1 : parse_unsub_header (str "UNSUB" ++ (ws1 ++ (natChars sid ++
        (ws2 ++ (natChars m ++ rest))))) =
        some { sid := sid, max_messages := some m } := by
      unfold parse_unsub_header
      rw [unsub_header_spec_some ws1 ws2 sid m rest h1 h2 h3 h4 h5,
        Option.map_some']
    have e2 : parse_unsub_header (str "UNSUB" ++ ([' '] ++ (natChars sid ++
        ([' '] ++ (natChars m ++ rest))))) =
        some { sid := sid, max_messages := some m } := by
      unfold parse_unsub_header
      rw [unsub_header_spec_some [' '] [' '] sid m rest hr hr h3 h4 h5,
        Option.map_some']
    exact ⟨e1.trans e2.symm, e1⟩

/-- Witness for the amended C2: the repository's own irregular-whitespace
test vector. -/
theorem C2_whitespace_amended_witness :
    parse_sub_header (str "SUB" ++ ((' ' :: ' ' :: ' ' :: '\t' :: [' ']) ++
      (str "FOO" ++ ((' ' :: ' ' :: ' ' :: '\t' :: [' ']) ++
      (str "group.test" ++ ((' ' :: '\t' :: [' ']) ++
      (natChars 99 ++ crlf))))))) =
    parse_sub_header (str "SUB" ++ ([' '] ++ (str "FOO" ++ ([' '] ++
      (str "group.test" ++ ([' '] ++ (natChars 99 ++ crlf))))))) :=
  ((C2_whitespace_amended.2.1 (' ' :: ' ' :: ' ' :: '\t' :: [' '])
    (' ' :: ' ' :: ' ' :: '\t' :: [' ']) (' ' :: '\t' :: [' '])
    (str "FOO") (str "group.test") 99 crlf (by decide) (by decide)
    (by decide) (by decide) (by decide) (by decide) (by decide))).1

/-! ## Claim C3 -/

/-- Counterexample to claim C3 as stated: the rendered `-ERR` form does
not terminate with CRLF. -/
theorem C3_counterexample :
    ProtocolMessage.render (.Error (str "no route")) =
      str "-ERR 'no route'" ∧
    crlf.isSuffixOf (ProtocolMessage.render (.Error (str "no route"))) =
      false := by
  constructor
  · decide
  · decide

/-- Claim C3 as amended: rendering every variant except `Error` joins its
fields with exactly one space and terminates with CRLF (with the payload
line of the two-line kinds following, also CRLF-terminated); the `Error`
variant renders as `-ERR '<text>'` with no trailing CRLF, its last
character being the closing tick. -/
theorem C3_canonical_amended :
    ∀ pm : ProtocolMessage,
      ((∀ s, pm ≠ .Error s) →
        pm.render = joinFields (headerFields pm) ++ crlf ++
          payloadTrailer pm) ∧
      (∀ s, pm = .Error s →
        pm.render = str "-ERR '" ++ s ++ str "'" ∧
        crlf.isSuffixOf pm.render = false) := by
  intro pm
  constructor
  · intro hne
    cases pm with
    | Unsubscribe m =>
      cases hmm : m.max_messages with
      | none =>
        simp [ProtocolMessage.render, UnsubscribeMessage.render, hmm,
          joinFields, headerFields, payloadTrailer, List.intersperse, str]
      | some n =>
        simp [ProtocolMessage.render, UnsubscribeMessage.render, hmm,
          joinFields, headerFields, payloadTrailer, List.intersperse, str]
    | Subscribe m =>
      cases hqg : m.queue_group with
      | none =>
        simp [ProtocolMessage.render, SubscribeMessage.render, hqg,
          joinFields, headerFields, payloadTrailer, List.intersperse, str]
      | some q =>
        simp [ProtocolMessage.render, SubscribeMessage.render, hqg,
          joinFields, headerFields, payloadTrailer, List.intersperse, str]
    | Publish m =>
      cases hrt : m.reply_to with
      | none =>
        simp [ProtocolMessage.render, PublishMessage.render, hrt,
          joinFields, headerFields, payloadTrailer, List.intersperse, str]
      | some rt =>
        simp [ProtocolMessage.render, PublishMessage.render, hrt,
          joinFields, headerFields, payloadTrailer, List.intersperse, str]
    | Message m =>
      cases hrt : m.reply_to with
      | none =>
        simp [ProtocolMessage.render, DeliveredMessage.render, hrt,
          joinFields, headerFields, payloadTrailer, List.intersperse, str]
      | some rt =>
        simp [ProtocolMessage.render, DeliveredMessage.render, hrt,
          joinFields, headerFields, payloadTrailer, List.intersperse, str]
    | Ping =>
      simp [ProtocolMessage.render, joinFields, headerFields,
        payloadTrailer, List.intersperse, str]
    | Pong =>
      simp [ProtocolMessage.render, joinFields, headerFields,
        payloadTrailer, List.intersperse, str]
    | Ok =>
      simp [ProtocolMessage.render, joinFields, headerFields,
        payloadTrailer, List.intersperse, str]
    | Error s => exact absurd rfl (hne s)
    | Info si =>
      simp [ProtocolMessage.render, ServerInformation.render,
        joinFields, headerFields, payloadTrailer, List.intersperse, str]
    | Connect ci =>
      simp [ProtocolMessage.render, ConnectionInformation.render,
        joinFields, headerFields, payloadTrailer, List.intersperse, str]
  · intro s hs
    subst hs
    constructor
    · rfl
    · show crlf.isSuffixOf (str "-ERR '" ++ s ++ str "'") = false
      have : ∀ l : Chars, crlf.isSuffixOf (l ++ ['\'']) = false := by
        intro l
        simp [List.isSuffixOf, crlf, List.isPrefixOf, List.reverse_append]
      have h2 : str "-ERR '" ++ s ++ str "'" =
          (str "-ERR '" ++ s) ++ ['\''] := by
        simp [str]
      rw [h2]
      exact this (str "-ERR '" ++ s)

/-- Witness for the amended C3 at a concrete message. -/
theorem C3_canonical_amended_witness :
    ProtocolMessage.render .Ping =
      joinFields (headerFields .Ping) ++ crlf ++ payloadTrailer .Ping :=
  (C3_canonical_amended .Ping).1 (fun s h => ProtocolMessage.noConfusion h)

/-! ## Claim C1 -/

/-- Counterexample to claim C1 as stated: the empty error message renders
as `-ERR ''`, which fails to parse back (the grammar requires at least
one character between the ticks), so `parse (render m) = m` does not hold
for every constructed message. -/
theorem C1_counterexample :
    ProtocolMessage.fromStr (ProtocolMessage.render (.Error [])) = none := by
  decide

theorem is_not_tick_of_ne (s : Chars) (h : ∀ c ∈ s, c ≠ '\'') :
    ∀ c ∈ s, is_not_tick c = true := by
  intro c hc
  have := h c hc
  simp [is_not_tick, this]

/-- Claim C1 as amended: round-tripping `parse (render m) = m` holds for
every well-formed message of the eight textual kinds (`GoodPM`: tokens
non-empty without space/CR/LF and not starting with a tab, numbers below
`2^64`, payloads that are CRLF-free UTF-8 text, error text non-empty and
tick-free); for the two JSON kinds the round trip holds at the
structured-object boundary of the external JSON codec, the encoded object
decoding back to the original value. -/
theorem C1_roundtrip_amended :
    (∀ pm : ProtocolMessage, GoodPM pm →
      ProtocolMessage.fromStr pm.render = some pm) ∧
    (∀ ci : ConnectionInformation,
      decodeConnect (encodeConnect ci) = some ci) ∧
    (∀ si : ServerInformation, decodeInfo (encodeInfo si) = some si) := by
  refine ⟨?_, decodeConnect_encode, decodeInfo_encode⟩
  intro pm hgood
  cases pm with
  | Unsubscribe m =>
    obtain ⟨sid, mm⟩ := m
    obtain ⟨h1, h2⟩ := hgood
    cases mm with
    | none =>
      have hform : ProtocolMessage.render (.Unsubscribe ⟨sid, none⟩) =
          str "UNSUB" ++ ([' '] ++ (natChars sid ++ crlf)) := by
        simp [ProtocolMessage.render, UnsubscribeMessage.render, str,
          List.append_assoc]
      rw [hform,
        fromStr_eq_unsub _ (by simp [startsWith, str, List.isPrefixOf])]
      unfold UnsubscribeMessage.fromStr parse_unsub_header
      rw [unsub_header_spec_none [' '] sid crlf (by decide) h1 (by decide)]
      rfl
    | some n =>
      have hn : n < 2 ^ 64 := h2 n rfl
      have hform : ProtocolMessage.render (.Unsubscribe ⟨sid, some n⟩) =
          str "UNSUB" ++ ([' '] ++ (natChars sid ++
            ([' '] ++ (natChars n ++ crlf)))) := by
        simp [ProtocolMessage.render, UnsubscribeMessage.render, str,
          List.append_assoc]
      rw [hform,
        fromStr_eq_unsub _ (by simp [startsWith, str, List.isPrefixOf])]
      unfold UnsubscribeMessage.fromStr parse_unsub_header
      rw [unsub_header_spec_some [' '] [' '] sid n crlf (by decide)
        (by decide) h1 hn (by decide)]
      rfl
  | Subscribe m =>
    obtain ⟨subj, qg, sid⟩ := m
    obtain ⟨h1, h2, h3⟩ := hgood
    cases qg with
    | none =>
      have hform : ProtocolMessage.render (.Subscribe ⟨subj, none, sid⟩) =
          str "SUB" ++ ([' '] ++ (subj ++ ([' '] ++
            (natChars sid ++ crlf)))) := by
        simp [ProtocolMessage.render, SubscribeMessage.render, str,
          List.append_assoc]
      rw [hform]
      rw [fromStr_eq_sub ([' '] ++ (subj ++ ([' '] ++
        (natChars sid ++ crlf))))]
      unfold SubscribeMessage.fromStr parse_sub_header
      rw [sub_header_spec_none [' '] [' '] subj sid crlf (by decide) h1
        (by decide) h3 (by decide)]
      rfl
    | some q =>
      have hq : goodToken q := h2 q rfl
      have hform : ProtocolMessage.render (.Subscribe ⟨subj, some q, sid⟩) =
          str "SUB" ++ ([' '] ++ (subj ++ ([' '] ++ (q ++ ([' '] ++
            (natChars sid ++ crlf)))))) := by
        simp [ProtocolMessage.render, SubscribeMessage.render, str,
          List.append_assoc]
      rw [hform]
      rw [fromStr_eq_sub ([' '] ++ (subj ++ ([' '] ++ (q ++ ([' '] ++
        (natChars sid ++ crlf))))))]
      unfold SubscribeMessage.fromStr parse_sub_header
      rw [sub_header_spec_some [' '] [' '] [' '] subj q sid crlf (by decide)
        h1 (by decide) hq (by decide) h3 (by decide)]
      rfl
  | Publish m =>
    obtain ⟨subj, rto, sz, pl⟩ := m
    obtain ⟨h1, h2, h3, cs, hpl, hcs⟩ := hgood
    subst hpl
    have hvts : vec_to_str (utf8Encode cs) = cs := vec_to_str_encode cs
    cases rto with
    | none =>
      have hhdr : hasCRLF (str "PUB" ++ ([' '] ++ (subj ++ ([' '] ++
          natChars sz)))) = false := by
        apply noLF_hasCRLF
        apply noLF_append _ _ (by decide)
        apply noLF_append _ _ (by decide)
        apply noLF_append _ _ (noLF_goodToken subj h1)
        apply noLF_append _ _ (by decide)
        exact noLF_natChars sz
      have hform : ProtocolMessage.render (.Publish ⟨subj, none, sz,
          utf8Encode cs⟩) =
          (str "PUB" ++ ([' '] ++ (subj ++ ([' '] ++ natChars sz)))) ++
            crlf ++ (cs ++ crlf ++ []) := by
        simp [ProtocolMessage.render, PublishMessage.render, hvts, str,
          List.append_assoc]
      have hform2 : (str "PUB" ++ ([' '] ++ (subj ++ ([' '] ++
          natChars sz)))) ++ crlf ++ (cs ++ crlf ++ []) =
          str "PUB" ++ (([' '] ++ (subj ++ ([' '] ++ natChars sz))) ++
            (crlf ++ (cs ++ crlf ++ []))) := by
        simp [List.append_assoc]
      have hph : pub_header (str "PUB" ++ ([' '] ++ (subj ++ ([' '] ++
          natChars sz)))) =
          some ({ subject := subj, reply_to := none, message_len := sz },
            []) := by
        have := pub_header_spec_none [' '] [' '] subj sz [] (by decide) h1
          (by decide) h3 (by decide)
        simpa using this
      rw [hform, hform2, fromStr_eq_pub]
      rw [← hform2]
      unfold PublishMessage.fromStr
      rw [split_hp_some _ _ _ hhdr hcs, Option.some_bind]
      unfold parse_pub_header
      rw [hph]
      rfl
    | some rt =>
      have hrt : goodToken rt := h2 rt rfl
      have hhdr : hasCRLF (str "PUB" ++ ([' '] ++ (subj ++ ([' '] ++
          (rt ++ ([' '] ++ natChars sz)))))) = false := by
        apply noLF_hasCRLF
        apply noLF_append _ _ (by decide)
        apply noLF_append _ _ (by decide)
        apply noLF_append _ _ (noLF_goodToken subj h1)
        apply noLF_append _ _ (by decide)
        apply noLF_append _ _ (noLF_goodToken rt hrt)
        apply noLF_append _ _ (by decide)
        exact noLF_natChars sz
      have hform : ProtocolMessage.render (.Publish ⟨subj, some rt, sz,
          utf8Encode cs⟩) =
          (str "PUB" ++ ([' '] ++ (subj ++ ([' '] ++ (rt ++ ([' '] ++
            natChars sz)))))) ++ crlf ++ (cs ++ crlf ++ []) := by
        simp [ProtocolMessage.render, PublishMessage.render, hvts, str,
          List.append_assoc]
      have hform2 : (str "PUB" ++ ([' '] ++ (subj ++ ([' '] ++ (rt ++
          ([' '] ++ natChars sz)))))) ++ crlf ++ (cs ++ crlf ++ []) =
          str "PUB" ++ (([' '] ++ (subj ++ ([' '] ++ (rt ++ ([' '] ++
            natChars sz))))) ++ (crlf ++ (cs ++ crlf ++ []))) := by
        simp [List.append_assoc]
      have hph : pub_header (str "PUB" ++ ([' '] ++ (subj ++ ([' '] ++
          (rt ++ ([' '] ++ natChars sz)))))) =
          some ({ subject := subj, reply_to := some rt, message_len := sz },
            []) := by
        have := pub_header_spec_some [' '] [' '] [' '] subj rt sz []
          (by decide) h1 (by decide) hrt (by decide) h3 (by decide)
        simpa using this
      rw [hform, hform2, fromStr_eq_pub]
      rw [← hform2]
      unfold PublishMessage.fromStr
      rw [split_hp_some _ _ _ hhdr hcs, Option.some_bind]
      unfold parse_pub_header
      rw [hph]
      rfl
  | Message m =>
    obtain ⟨subj, sid, rto, sz, pl⟩ := m
    obtain ⟨h1, h2, h3, h4, cs, hpl, hcs⟩ := hgood
    subst hpl
    have hvts : vec_to_str (utf8Encode cs) = cs := vec_to_str_encode cs
    cases rto with
    | none =>
      have hhdr : hasCRLF (str "MSG" ++ ([' '] ++ (subj ++ ([' '] ++
          (natChars sid ++ ([' '] ++ natChars sz)))))) = false := by
        apply noLF_hasCRLF
        apply noLF_append _ _ (by decide)
        apply noLF_append _ _ (by decide)
        apply noLF_append _ _ (noLF_goodToken subj h1)
        apply noLF_append _ _ (by decide)
        apply noLF_append _ _ (noLF_natChars sid)
        apply noLF_append _ _ (by decide)
        exact noLF_natChars sz
      have hform : ProtocolMessage.render (.Message ⟨subj, sid, none, sz,
          utf8Encode cs⟩) =
          (str "MSG" ++ ([' '] ++ (subj ++ ([' '] ++ (natChars sid ++
            ([' '] ++ natChars sz)))))) ++ crlf ++ (cs ++ crlf ++ []) := by
        simp [ProtocolMessage.render, DeliveredMessage.render, hvts, str,
          List.append_assoc]
      have hform2 : (str "MSG" ++ ([' '] ++ (subj ++ ([' '] ++
          (natChars sid ++ ([' '] ++ natChars sz)))))) ++ crlf ++
            (cs ++ crlf ++ []) =
          str "MSG" ++ (([' '] ++ (subj ++ ([' '] ++ (natChars sid ++
            ([' '] ++ natChars sz))))) ++ (crlf ++ (cs ++ crlf ++ []))) := by
        simp [List.append_assoc]
      have hph : msg_header (str "MSG" ++ ([' '] ++ (subj ++ ([' '] ++
          (natChars sid ++ ([' '] ++ natChars sz)))))) =
          some ({ subject := subj, sid := sid, reply_to := none,
                  message_len := sz }, []) := by
        have := msg_header_spec_none [' '] [' '] [' '] subj sid sz []
          (by decide) h1 (by decide) (by decide) h2 h4 (by decide)
        simpa using this
      rw [hform, hform2, fromStr_eq_msg]
      rw [← hform2]
      unfold DeliveredMessage.fromStr
      rw [split_hp_some _ _ _ hhdr hcs, Option.some_bind]
      unfold parse_msg_header
      rw [hph]
      rfl
    | some rt =>
      have hrt : goodToken rt := h3 rt rfl
      have hhdr : hasCRLF (str "MSG" ++ ([' '] ++ (subj ++ ([' '] ++
          (natChars sid ++ ([' '] ++ (rt ++ ([' '] ++
            natChars sz)))))))) = false := by
        apply noLF_hasCRLF
        apply noLF_append _ _ (by decide)
        apply noLF_append _ _ (by decide)
        apply noLF_append _ _ (noLF_goodToken subj h1)
        apply noLF_append _ _ (by decide)
        apply noLF_append _ _ (noLF_natChars sid)
        apply noLF_append _ _ (by decide)
        apply noLF_append _ _ (noLF_goodToken rt hrt)
        apply noLF_append _ _ (by decide)
        exact noLF_natChars sz
      have hform : ProtocolMessage.render (.Message ⟨subj, sid, some rt, sz,
          utf8Encode cs⟩) =
          (str "MSG" ++ ([' '] ++ (subj ++ ([' '] ++ (natChars sid ++
            ([' '] ++ (rt ++ ([' '] ++ natChars sz)))))))) ++ crlf ++
            (cs ++ crlf ++ []) := by
        simp [ProtocolMessage.render, DeliveredMessage.render, hvts, str,
          List.append_assoc]
      have hform2 : (str "MSG" ++ ([' '] ++ (subj ++ ([' '] ++
          (natChars sid ++ ([' '] ++ (rt ++ ([' '] ++
            natChars sz)))))))) ++ crlf ++ (cs ++ crlf ++ []) =
          str "MSG" ++ (([' '] ++ (subj ++ ([' '] ++ (natChars sid ++
            ([' '] ++ (rt ++ ([' '] ++ natChars sz))))))) ++
            (crlf ++ (cs ++ crlf ++ []))) := by
        simp [List.append_assoc]
      have hph : msg_header (str "MSG" ++ ([' '] ++ (subj ++ ([' '] ++
          (natChars sid ++ ([' '] ++ (rt ++ ([' '] ++ natChars sz)))))))) =
          some ({ subject := subj, sid := sid, reply_to := some rt,
                  message_len := sz }, []) := by
        have := msg_header_spec_some [' '] [' '] [' '] [' '] subj rt sid sz
          [] (by decide) h1 (by decide) (by decide) hrt (by decide) h2 h4
          (by decide)
        simpa using this
      rw [hform, hform2, fromStr_eq_msg]
      rw [← hform2]
      unfold DeliveredMessage.fromStr
      rw [split_hp_some _ _ _ hhdr hcs, Option.some_bind]
      unfold parse_msg_header
      rw [hph]
      rfl
  | Ping => decide
  | Pong => decide
  | Ok => decide
  | Error s =>
    obtain ⟨h1, h2⟩ := hgood
    have hform : ProtocolMessage.render (.Error s) =
        str "-ERR" ++ ((' ' : Char) :: '\'' :: (s ++ ('\'' :: []))) := by
      simp [ProtocolMessage.render, str, List.append_assoc]
    rw [hform, fromStr_eq_err]
    rw [show str "-ERR" ++ ((' ' : Char) :: '\'' :: (s ++ ('\'' :: []))) =
      str "-ERR '" ++ (s ++ ('\'' :: [])) from by simp [str]]
    unfold parse_err_header
    rw [err_header_spec s [] h1 (is_not_tick_of_ne s h2)]
    rfl
  | Info si => exact hgood.elim
  | Connect ci => exact hgood.elim

/-- Witness for the amended C1 at a concrete message. -/
theorem C1_roundtrip_amended_witness :
    ProtocolMessage.fromStr (ProtocolMessage.render .Ping) = some .Ping :=
  C1_roundtrip_amended.1 .Ping trivial

/-! ## Claim C8 -/

theorem decodeConnect_obj (kvs : List (String × Json)) :
    decodeConnect (.obj kvs) =
      if noDupKeys ["verbose", "pedantic", "tls_required", "auth_token",
          "user", "pass", "lang", "name", "version", "protocol", "sig",
          "jwt"] kvs then
        (reqBool kvs "verbose").bind fun verbose =>
        (reqBool kvs "pedantic").bind fun pedantic =>
        (reqBool kvs "tls_required").bind fun tls_required =>
        (optStrField kvs "auth_token").bind fun auth_token =>
        (optStrField kvs "user").bind fun user =>
        (optStrField kvs "pass").bind fun pass =>
        (reqStr kvs "lang").bind fun lang =>
        (reqStr kvs "name").bind fun name =>
        (reqStr kvs "version").bind fun version =>
        (optNumField kvs "protocol").bind fun protocol =>
        (optStrField kvs "sig").bind fun sig =>
        (optStrField kvs "jwt").map fun jwt =>
          { verbose := verbose, pedantic := pedantic,
            tls_required := tls_required, auth_token := auth_token,
            user := user, pass := pass, lang := lang, name := name,
            version := version, protocol := protocol, sig := sig,
            jwt := jwt }
      else none := rfl

theorem decodeInfo_obj (kvs : List (String × Json)) :
    decodeInfo (.obj kvs) =
      if noDupKeys ["server_id", "version", "proto", "go", "host", "port",
          "auth_required", "tls_required", "max_payload", "client_id",
          "connect_urls", "nonce"] kvs then
        (reqStr kvs "server_id").bind fun server_id =>
        (reqStr kvs "version").bind fun version =>
        (optNumField kvs "proto").bind fun proto =>
        (reqStr kvs "go").bind fun go =>
        (reqStr kvs "host").bind fun host =>
        (reqNum kvs "port").bind fun port =>
        (dfltBoolField kvs "auth_required").bind fun auth_required =>
        (dfltBoolField kvs "tls_required").bind fun tls_required =>
        (dfltNumField kvs "max_payload").bind fun max_payload =>
        (optNumField kvs "client_id").bind fun client_id =>
        (optStrArrField kvs "connect_urls").bind fun connect_urls =>
        (optStrField kvs "nonce").map fun nonce =>
          { server_id := server_id, version := version, proto := proto,
            go := go, host := host, port := port,
            auth_required := auth_required, tls_required := tls_required,
            max_payload := max_payload, client_id := client_id,
            connect_urls := connect_urls, nonce := nonce }
      else none := rfl

theorem decodeConnect_obj_inv (kvs : List (String × Json))
    (ci : ConnectionInformation) (h : decodeConnect (.obj kvs) = some ci) :
    optStrField kvs "auth_token" = some ci.auth_token ∧
    optStrField kvs "user" = some ci.user ∧
    optStrField kvs "pass" = some ci.pass ∧
    optNumField kvs "protocol" = some ci.protocol ∧
    optStrField kvs "sig" = some ci.sig ∧
    optStrField kvs "jwt" = some ci.jwt := by
  rw [decodeConnect_obj] at h
  by_cases hdup : noDupKeys ["verbose", "pedantic", "tls_required",
      "auth_token", "user", "pass", "lang", "name", "version", "protocol",
      "sig", "jwt"] kvs = true
  · rw [if_pos hdup] at h
    simp only [Option.bind_eq_some, Option.map_eq_some'] at h
    obtain ⟨vb, hvb, pd, hpd, tl, htl, at_, hat, us, hus, pa, hpa, la, hla,
      na, hna, ve, hve, pr, hpr, sg, hsg, jw, ⟨hjw, heq⟩⟩ := h
    subst heq
    exact ⟨hat, hus, hpa, hpr, hsg, hjw⟩
  · rw [if_neg hdup] at h
    cases h

theorem decodeInfo_obj_inv (kvs : List (String × Json))
    (si : ServerInformation) (h : decodeInfo (.obj kvs) = some si) :
    optNumField kvs "proto" = some si.proto ∧
    optNumField kvs "client_id" = some si.client_id ∧
    optStrArrField kvs "connect_urls" = some si.connect_urls ∧
    optStrField kvs "nonce" = some si.nonce := by
  rw [decodeInfo_obj] at h
  by_cases hdup : noDupKeys ["server_id", "version", "proto", "go", "host",
      "port", "auth_required", "tls_required", "max_payload", "client_id",
      "connect_urls", "nonce"] kvs = true
  · rw [if_pos hdup] at h
    simp only [Option.bind_eq_some, Option.map_eq_some'] at h
    obtain ⟨sv, hsv, ve, hve, pr, hpr, go, hgo, ho, hho, po, hpo, ar, har,
      tr, htr, mp, hmp, cid, hcid, cu, hcu, no, ⟨hno, heq⟩⟩ := h
    subst heq
    exact ⟨hpr, hcid, hcu, hno⟩
  · rw [if_neg hdup] at h
    cases h

theorem absent_of_optStrField (kvs : List (String × Json)) (k : String)
    (v : Option Chars) (h : optStrField kvs k = some v)
    (hfind : findField k kvs = none) : v = none := by
  unfold optStrField at h
  rw [hfind] at h
  exact (Option.some_inj.mp h).symm

theorem absent_of_optNumField (kvs : List (String × Json)) (k : String)
    (v : Option Nat) (h : optNumField kvs k = some v)
    (hfind : findField k kvs = none) : v = none := by
  unfold optNumField at h
  rw [hfind] at h
  exact (Option.some_inj.mp h).symm

theorem absent_of_optStrArrField (kvs : List (String × Json)) (k : String)
    (v : Option (List Chars)) (h : optStrArrField kvs k = some v)
    (hfind : findField k kvs = none) : v = none := by
  unfold optStrArrField at h
  rw [hfind] at h
  exact (Option.some_inj.mp h).symm

/-- Claim C8 (confirmed, at the structured-object boundary of the
external JSON codec). Rendering a `ConnectionInformation` or
`ServerInformation` emits a member for an optional field exactly when
the field is present — never for an absent one; decoding an object that
lacks an optional key succeeds with that field absent (witnessed by the
all-absent encodings, which decode successfully), never with an error
caused by the absence. -/
theorem C8_optional_omission :
    (∀ ci : ConnectionInformation,
      (findField "auth_token" (connMembers ci)).isSome =
        ci.auth_token.isSome ∧
      (findField "user" (connMembers ci)).isSome = ci.user.isSome ∧
      (findField "pass" (connMembers ci)).isSome = ci.pass.isSome ∧
      (findField "protocol" (connMembers ci)).isSome = ci.protocol.isSome ∧
      (findField "sig" (connMembers ci)).isSome = ci.sig.isSome ∧
      (findField "jwt" (connMembers ci)).isSome = ci.jwt.isSome) ∧
    (∀ si : ServerInformation,
      (findField "proto" (infoMembers si)).isSome = si.proto.isSome ∧
      (findField "client_id" (infoMembers si)).isSome =
        si.client_id.isSome ∧
      (findField "connect_urls" (infoMembers si)).isSome =
        si.connect_urls.isSome ∧
      (findField "nonce" (infoMembers si)).isSome = si.nonce.isSome) ∧
    (∀ (kvs : List (String × Json)) (ci : ConnectionInformation),
      decodeConnect (.obj kvs) = some ci →
      (findField "auth_token" kvs = none → ci.auth_token = none) ∧
      (findField "user" kvs = none → ci.user = none) ∧
      (findField "pass" kvs = none → ci.pass = none) ∧
      (findField "protocol" kvs = none → ci.protocol = none) ∧
      (findField "sig" kvs = none → ci.sig = none) ∧
      (findField "jwt" kvs = none → ci.jwt = none)) ∧
    (∀ (kvs : List (String × Json)) (si : ServerInformation),
      decodeInfo (.obj kvs) = some si →
      (findField "proto" kvs = none → si.proto = none) ∧
      (findField "client_id" kvs = none → si.client_id = none) ∧
      (findField "connect_urls" kvs = none → si.connect_urls = none) ∧
      (findField "nonce" kvs = none → si.nonce = none)) ∧
    (∀ ci : ConnectionInformation,
      ci.auth_token = none → ci.user = none → ci.pass = none →
      ci.protocol = none → ci.sig = none → ci.jwt = none →
      decodeConnect (encodeConnect ci) = some ci) ∧
    (∀ si : ServerInformation,
      si.proto = none → si.client_id = none → si.connect_urls = none →
      si.nonce = none → decodeInfo (encodeInfo si) = some si) := by
  refine ⟨?_, ?_, ?_, ?_,
    fun ci _ _ _ _ _ _ => decodeConnect_encode ci,
    fun si _ _ _ _ => decodeInfo_encode si⟩
  · intro ci
    refine ⟨?_, ?_, ?_, ?_, ?_, ?_⟩
    · rw [connFind_auth_token]; cases ci.auth_token <;> rfl
    · rw [connFind_user]; cases ci.user <;> rfl
    · rw [connFind_pass]; cases ci.pass <;> rfl
    · rw [connFind_protocol]; cases ci.protocol <;> rfl
    · rw [connFind_sig]; cases ci.sig <;> rfl
    · rw [connFind_jwt]; cases ci.jwt <;> rfl
  · intro si
    refine ⟨?_, ?_, ?_, ?_⟩
    · rw [infoFind_proto]; cases si.proto <;> rfl
    · rw [infoFind_client_id]; cases si.client_id <;> rfl
    · rw [infoFind_connect_urls]; cases si.connect_urls <;> rfl
    · rw [infoFind_nonce]; cases si.nonce <;> rfl
  · intro kvs ci h
    obtain ⟨hat, hus, hpa, hpr, hsg, hjw⟩ := decodeConnect_obj_inv kvs ci h
    exact ⟨absent_of_optStrField kvs _ _ hat,
      absent_of_optStrField kvs _ _ hus,
      absent_of_optStrField kvs _ _ hpa,
      absent_of_optNumField kvs _ _ hpr,
      absent_of_optStrField kvs _ _ hsg,
      absent_of_optStrField kvs _ _ hjw⟩
  · intro kvs si h
    obtain ⟨hpr, hcid, hcu, hno⟩ := decodeInfo_obj_inv kvs si h
    exact ⟨absent_of_optNumField kvs _ _ hpr,
      absent_of_optNumField kvs _ _ hcid,
      absent_of_optStrArrField kvs _ _ hcu,
      absent_of_optStrField kvs _ _ hno⟩

/-- Witness for C8's conditional parts at a concrete object. -/
theorem C8_optional_omission_witness :
    c8ci.user = none ∧ decodeConnect (encodeConnect c8ci) = some c8ci := by
  refine ⟨?_, C8_optional_omission.2.2.2.2.1 c8ci rfl rfl rfl rfl rfl rfl⟩
  have h : decodeConnect (encodeConnect c8ci) = some c8ci :=
    C8_optional_omission.2.2.2.2.1 c8ci rfl rfl rfl rfl rfl rfl
  have h2 : encodeConnect c8ci =
      .obj [("verbose", .bool false), ("pedantic", .bool false),
        ("tls_required", .bool false), ("lang", .str (str "go")),
        ("name", .str (str "n")), ("version", .str (str "1"))] := rfl
  rw [h2] at h
  exact (C8_optional_omission.2.2.1 _ c8ci h).2.1 rfl

/-- Claim C9, refuted by the code (code bug). The source strips the
CONNECT keyword with `s.replace("CONNECT ", "")`, which removes every
occurrence of the keyword, not only the leading one. On `c9raw`, whose
JSON body repeats "CONNECT " inside the string value of the `name`
member, the text handed to the JSON decoder differs from the
strip-only-the-leading-keyword text the spec describes, and the decoded
`name` field comes back as "go" instead of the "CONNECT go" written in
the input. -/
theorem C9_counterexample :
    rustTrim (replaceAll (str "CONNECT ") [] c9raw) ≠
      rustTrim (stripLeading (str "CONNECT ") c9raw) ∧
    (ConnectionInformation.fromStr c9raw).map ConnectionInformation.name =
      some (str "go") := by
  constructor
  · decide
  · decide

/-- Claim C10 (confirmed). Rendering a Publish or a delivered Message
whose payload bytes are not valid UTF-8 emits the fixed placeholder
`<<BAD PAYLOAD>>` in the payload position: the rendered text equals the
rendering of the same value with its payload replaced by the placeholder
text's bytes (the declared payload size is untouched). -/
theorem C10_bad_payload :
    (∀ m : PublishMessage, utf8Decode m.payload = none →
      vec_to_str m.payload = str "<<BAD PAYLOAD>>" ∧
      m.render = PublishMessage.render
        (PublishMessage.mk m.subject m.reply_to m.payload_size
          (utf8Encode (str "<<BAD PAYLOAD>>")))) ∧
    (∀ m : DeliveredMessage, utf8Decode m.payload = none →
      vec_to_str m.payload = str "<<BAD PAYLOAD>>" ∧
      m.render = DeliveredMessage.render
        (DeliveredMessage.mk m.subject m.subscription_id m.reply_to
          m.payload_size (utf8Encode (str "<<BAD PAYLOAD>>")))) := by
  constructor
  · intro m h
    have h1 : vec_to_str m.payload = str "<<BAD PAYLOAD>>" := by
      unfold vec_to_str
      rw [h]
      rfl
    refine ⟨h1, ?_⟩
    cases hr : m.reply_to with
    | none =>
        simp only [PublishMessage.render, hr, h1, vec_to_str_encode]
    | some rt =>
        simp only [PublishMessage.render, hr, h1, vec_to_str_encode]
  · intro m h
    have h1 : vec_to_str m.payload = str "<<BAD PAYLOAD>>" := by
      unfold vec_to_str
      rw [h]
      rfl
    refine ⟨h1, ?_⟩
    cases hr : m.reply_to with
    | none =>
        simp only [DeliveredMessage.render, hr, h1, vec_to_str_encode]
    | some rt =>
        simp only [DeliveredMessage.render, hr, h1, vec_to_str_encode]

/-- Witness for C10 at the single invalid byte 0xFF. -/
theorem C10_bad_payload_witness :
    vec_to_str [255] = str "<<BAD PAYLOAD>>" ∧
    PublishMessage.render (PublishMessage.mk (str "S") none 1 [255]) =
      PublishMessage.render (PublishMessage.mk (str "S") none 1
        (utf8Encode (str "<<BAD PAYLOAD>>"))) :=
  ⟨(C10_bad_payload.1 (PublishMessage.mk (str "S") none 1 [255])
      (by decide)).1,
   (C10_bad_payload.1 (PublishMessage.mk (str "S") none 1 [255])
      (by decide)).2⟩

end NatsTypes
